import Mathlib

/-!
# Nucleus: Linux dark-mode detector and notification bridge

Shallow embedding of

* `darkmode-detector/src/main/native/linux/nucleus_linux_theme.c`
* `nucleus-notification/src/main/native/linux/NucleusNotificationBridge.c`

D-Bus messages are modelled by their argument lists, the bus and the
notification daemon by explicit inputs that say what each library call
returned, C `int` values by integers reduced to 32 bits where the source
converts or increments them.

The watcher is a step system: one client thread that calls
`nativeStartObserving` and `nativeStopObserving`, and the worker threads
made by `pthread_create`, interleaved step by step; `pthread_join` returns
once its target has returned. The registry is the bridge state between
`JNI_OnLoad` and `cleanup`, with table keys as 64-bit `jlong` values (the
LP64 reading of `GINT_TO_POINTER`). Events of the notification service
reach the bridge through the callbacks it registered: libnotify keeps one
callback per action key of a notification and runs every handler connected
to its `closed` signal; the calls into Java they make are collected as a
list.
-/

namespace Nucleus

/-! ## D-Bus values and messages -/

/-- One D-Bus value, as far as the decoders look at it: a `uint32`, a
`string`, a `variant` with its single content, or a value of any other
type (`other`, with the D-Bus type code as a tag). -/
inductive DBusValue where
  | uint32 (val : Nat)
  | string (s : String)
  | variant (content : DBusValue)
  | other (typeCode : Nat)
  deriving DecidableEq, Repr

/-- The kind of a message, as `dbus_message_get_type` reports it. -/
inductive DBusMessageType where
  | methodCall
  | methodReturn
  | error
  | signal
  deriving DecidableEq, Repr

/-- A D-Bus message: its kind, interface and member (both may be absent)
and its arguments in order. -/
structure DBusMessage where
  msgType : DBusMessageType
  iface : Option String
  member : Option String
  args : List DBusValue
  deriving DecidableEq, Repr

/-- Portal constant `APPEARANCE_NS`. -/
def APPEARANCE_NS : String := "org.freedesktop.appearance"

/-- Portal constant `COLOR_SCHEME`. -/
def COLOR_SCHEME : String := "color-scheme"

/-- Portal constant `PORTAL_IFACE`. -/
def PORTAL_IFACE : String := "org.freedesktop.portal.Settings"

/-- The C conversion `(int)val` of a `dbus_uint32_t`: the value modulo
`2^32`, read in two's complement. -/
def int_of_uint32 (val : Nat) : Int :=
  if val % 2 ^ 32 < 2 ^ 31 then ((val % 2 ^ 32 : Nat) : Int)
  else ((val % 2 ^ 32 : Nat) : Int) - 2 ^ 32

/-- Source function `extract_color_scheme`: the first argument of the reply
must be a variant; its content is either a variant holding a `uint32`, or
directly a `uint32`; everything else gives `-1`. -/
def extract_color_scheme (reply : DBusMessage) : Int :=
  match reply.args with
  | [] => -1
  | DBusValue.variant outer :: _ =>
    match outer with
    | DBusValue.variant inner =>
      match inner with
      | DBusValue.uint32 val => int_of_uint32 val
      | _ => -1
    | DBusValue.uint32 val => int_of_uint32 val
    | _ => -1
  | _ :: _ => -1

/-- What the three bus calls of `read_color_scheme` returned: whether
`dbus_bus_get` gave a connection, whether `dbus_message_new_method_call`
gave a message, and the reply of
`dbus_connection_send_with_reply_and_block` (`none` for `NULL`: service
unreachable, error reply or timeout). -/
structure SessionBus where
  conn : Bool
  msg : Bool
  reply : Option DBusMessage
  deriving DecidableEq, Repr

/-- Source function `read_color_scheme` (returned unchanged by
`nativeIsDark`): `JNI_TRUE` exactly when a reply arrived and decoded to
`1`. -/
def read_color_scheme (bus : SessionBus) : Bool :=
  if bus.conn = false then false
  else if bus.msg = false then false
  else
    match bus.reply with
    | none => false
    | some reply => if extract_color_scheme reply = 1 then true else false

/-- JNI entry point `nativeIsDark`. -/
def nativeIsDark (bus : SessionBus) : Bool :=
  read_color_scheme bus

/-- The preference enum of the specification. -/
inductive ThemePreference where
  | NoPreference
  | Dark
  | Light
  deriving DecidableEq, Repr

/-- A method-return message with the given arguments. -/
def replyWith (args : List DBusValue) : DBusMessage :=
  { msgType := DBusMessageType.methodReturn, iface := none, member := none, args := args }

/-- A bus on which every call succeeds and the reply is `reply`. -/
def busWithReply (reply : DBusMessage) : SessionBus :=
  { conn := true, msg := true, reply := some reply }

/-- Source function `dbus_message_is_signal` as used by the worker: the
message is a signal with the given interface and member. -/
def dbus_message_is_signal (msg : DBusMessage) (iface member : String) : Bool :=
  decide (msg.msgType = DBusMessageType.signal) &&
    decide (msg.iface = some iface) && decide (msg.member = some member)

/-- Source function `extract_signal_color_scheme`: arguments
`(string namespace, string key, variant(uint32))`, with the namespace and
key compared to the portal constants; `-1` on any mismatch. -/
def extract_signal_color_scheme (msg : DBusMessage) : Int :=
  match msg.args with
  | [] => -1
  | DBusValue.string ns :: rest1 =>
    if ns ≠ APPEARANCE_NS then -1
    else
      match rest1 with
      | [] => -1
      | DBusValue.string key :: rest2 =>
        if key ≠ COLOR_SCHEME then -1
        else
          match rest2 with
          | [] => -1
          | DBusValue.variant content :: _ =>
            match content with
            | DBusValue.uint32 val => int_of_uint32 val
            | _ => -1
          | _ :: _ => -1
      | _ :: _ => -1
  | _ :: _ => -1

/-- Body of the inner loop of `monitor_thread` for one popped message: the
list of `notify_java` calls it makes (the argument of each call). -/
def handle_message (msg : DBusMessage) : List Bool :=
  if dbus_message_is_signal msg PORTAL_IFACE "SettingChanged" then
    let scheme := extract_signal_color_scheme msg
    if scheme ≥ 0 then [decide (scheme = 1)] else []
  else []

/-- A `SettingChanged` signal of the settings portal with the given
arguments. -/
def settingChanged (args : List DBusValue) : DBusMessage :=
  { msgType := DBusMessageType.signal, iface := some PORTAL_IFACE,
    member := some "SettingChanged", args := args }

/-! ## Theme watcher: worker thread and start/stop -/

/-- Control location of one `monitor_thread`: before the dispatch loop, at
the test of `while (g_running)`, inside the inner loop with the messages
`dbus_connection_pop_message` has still to return, or returned. -/
inductive WorkerPc where
  | setup
  | loopHead
  | draining (queue : List DBusMessage)
  | exited
  deriving DecidableEq, Repr

/-- What the bus gives the worker at a step: `fail` when
`dbus_bus_get_private` returns `NULL`, `dbus_bus_add_match` sets the error
or `dbus_connection_read_write` returns `FALSE`; `ok msgs` when the call
succeeds, `msgs` being the messages the following pops return. -/
inductive BusInput where
  | fail
  | ok (msgs : List DBusMessage)
  deriving DecidableEq, Repr

/-- One step of source function `monitor_thread`, given the value of
`g_running` it reads: the next control location and the `notify_java`
calls made in between; `none` once the thread has returned. -/
def monitor_thread_step (g_running : Bool) (pc : WorkerPc) (inp : BusInput) :
    Option (WorkerPc × List Bool) :=
  match pc with
  | WorkerPc.setup =>
    match inp with
    | BusInput.fail => some (WorkerPc.exited, [])
    | BusInput.ok _ => some (WorkerPc.loopHead, [])
  | WorkerPc.loopHead =>
    if g_running = false then some (WorkerPc.exited, [])
    else
      match inp with
      | BusInput.fail => some (WorkerPc.exited, [])
      | BusInput.ok msgs => some (WorkerPc.draining msgs, [])
  | WorkerPc.draining [] => some (WorkerPc.loopHead, [])
  | WorkerPc.draining (msg :: queue) => some (WorkerPc.draining queue, handle_message msg)
  | WorkerPc.exited => none

/-- State of the watcher: the flag `g_running`, every thread made by
`pthread_create` (newest first, so `g_thread` is the head), and whether the
client thread is blocked in the `pthread_join` of `nativeStopObserving`. -/
structure Watcher where
  g_running : Bool
  threads : List WorkerPc
  joining : Bool
  deriving DecidableEq, Repr

/-- State at library load: flag clear, no thread. -/
def Watcher.init : Watcher :=
  { g_running := false, threads := [], joining := false }

/-- JNI entry point `nativeStartObserving`: nothing when the flag is set,
else set the flag and create the worker (`pthread_create` taken to
succeed). -/
def nativeStartObserving (w : Watcher) : Watcher :=
  if w.g_running then w
  else { w with g_running := true, threads := WorkerPc.setup :: w.threads }

/-- JNI entry point `nativeStopObserving` up to its `pthread_join`: nothing
when the flag is clear, else clear the flag and start waiting for
`g_thread`. -/
def nativeStopObserving (w : Watcher) : Watcher :=
  if w.g_running = false then w
  else { w with g_running := false, joining := true }

/-- Return of `pthread_join(g_thread)`: possible only once the thread
`g_thread` names has returned. -/
def pthread_join (w : Watcher) : Option Watcher :=
  if w.joining then
    match w.threads with
    | WorkerPc.exited :: _ => some { w with joining := false }
    | _ => none
  else none

/-- The worker threads that have not returned yet. -/
def liveWorkers (w : Watcher) : Nat :=
  (w.threads.filter (fun pc => decide (pc ≠ WorkerPc.exited))).length

/-- One atomic step of the system: the client thread calls start or stop,
the pending join returns, or worker `i` makes a step. -/
inductive Action where
  | start
  | stop
  | joinReturn
  | worker (i : Nat) (inp : BusInput)
  deriving DecidableEq, Repr

/-- What an observer of the system sees: a start call, the return of a stop
call, a call of `notify_java`. -/
inductive Event where
  | startCalled
  | stopReturned
  | notify_java (isDark : Bool)
  deriving DecidableEq, Repr

/-- Effect of one action and the events it produces; `none` when the action
is not enabled (the one client thread is blocked in the join, the join
target is still running, the worker has returned). -/
def step (w : Watcher) (a : Action) : Option (Watcher × List Event) :=
  match a with
  | Action.start =>
    if w.joining then none else some (nativeStartObserving w, [Event.startCalled])
  | Action.stop =>
    if w.joining then none
    else if (nativeStopObserving w).joining then some (nativeStopObserving w, [])
    else some (nativeStopObserving w, [Event.stopReturned])
  | Action.joinReturn =>
    match pthread_join w with
    | some w1 => some (w1, [Event.stopReturned])
    | none => none
  | Action.worker i inp =>
    match w.threads[i]? with
    | none => none
    | some pc =>
      match monitor_thread_step w.g_running pc inp with
      | none => none
      | some (pc1, calls) =>
        some ({ w with threads := w.threads.set i pc1 }, calls.map Event.notify_java)

/-- Run a schedule of actions, collecting the events in order. -/
def run (w : Watcher) : List Action → Option (Watcher × List Event)
  | [] => some (w, [])
  | a :: rest =>
    match step w a with
    | none => none
    | some (w1, evs) =>
      match run w1 rest with
      | none => none
      | some (w2, evs2) => some (w2, evs ++ evs2)

/-- Scan of a trace: `quiet` says a stop has returned and no start was
called since; the scan fails at a `notify_java` seen while quiet. -/
def noNotifyAfterStop (quiet : Bool) : List Event → Bool
  | [] => true
  | Event.startCalled :: rest => noNotifyAfterStop false rest
  | Event.stopReturned :: rest => noNotifyAfterStop true rest
  | Event.notify_java _ :: rest => !quiet && noNotifyAfterStop quiet rest

/-- The quiet flag of the scan after a trace: true when the last start or
stop-return event of the trace is a stop-return, else as before. -/
def quietAfter (quiet : Bool) : List Event → Bool
  | [] => quiet
  | Event.startCalled :: rest => quietAfter false rest
  | Event.stopReturned :: rest => quietAfter true rest
  | Event.notify_java _ :: rest => quietAfter quiet rest

/-- Invariant of the watcher: only the thread `g_thread` names can still be
running; with the flag clear and no join pending every thread has
returned; a pending join means the flag is clear. -/
def WatcherInv (w : Watcher) : Prop :=
  (∀ pc ∈ w.threads.tail, pc = WorkerPc.exited) ∧
  (w.g_running = false → w.joining = false → ∀ pc ∈ w.threads, pc = WorkerPc.exited) ∧
  (w.joining = true → w.g_running = false)

/-- A schedule used as an example: start, the worker sets up, reads one
dark-theme signal and forwards it, the client calls stop, the worker sees
the cleared flag and returns, the join returns. -/
def sampleSchedule : List Action :=
  [Action.start,
   Action.worker 0 (BusInput.ok []),
   Action.worker 0 (BusInput.ok [settingChanged
     [DBusValue.string APPEARANCE_NS, DBusValue.string COLOR_SCHEME,
       DBusValue.variant (DBusValue.uint32 1)]]),
   Action.worker 0 (BusInput.ok []),
   Action.stop,
   Action.worker 0 (BusInput.ok []),
   Action.worker 0 (BusInput.ok []),
   Action.joinReturn]

/-! ## Notification registry -/

/-- The two C callbacks passed to `notify_notification_add_action`. -/
inductive ActionCallback where
  | button_action_callback
  | default_click_callback
  deriving DecidableEq, Repr

/-- One action registered on a notification, with the `user_data` given at
registration. -/
structure NotifyAction where
  action : String
  label : String
  callback : ActionCallback
  user_data : Int
  deriving DecidableEq, Repr

/-- The part of a `NotifyNotification` object the bridge sets: texts, icon,
registered actions, image, handlers connected to `closed` (by their
`user_data`), and whether a show has succeeded. -/
structure NotifyNotification where
  summary : String
  body : String
  icon : Option String
  actions : List NotifyAction
  image : Option String
  closed_handlers : List Int
  shown : Bool
  deriving DecidableEq, Repr

/-- The bridge state between `JNI_OnLoad` and `cleanup`: whether libnotify
is initialised, the `static int notification_id` of `createNotification`,
the hash table `notifications_map` as an association list with one entry
per key, and the process-wide callback objects and method ids. -/
structure Registry where
  initted : Bool
  notification_id : Int
  notifications_map : List (Int × NotifyNotification)
  g_clickedCallbackObj : Option Nat
  g_clickedMethod : Option Nat
  g_closedCallbackObj : Option Nat
  g_closedMethod : Option Nat
  g_buttonCallbackObj : Option Nat
  g_buttonMethod : Option Nat
  deriving DecidableEq, Repr

/-- State left by `JNI_OnLoad`: empty table, counter at its initialiser
`0`, no callback. -/
def Registry.fresh : Registry :=
  { initted := false, notification_id := 0, notifications_map := [],
    g_clickedCallbackObj := none, g_clickedMethod := none,
    g_closedCallbackObj := none, g_closedMethod := none,
    g_buttonCallbackObj := none, g_buttonMethod := none }

/-- A C `int` after an arithmetic step: reduced to 32 bits, two's
complement, the result the Linux targets of the bridge give when
`++notification_id` passes `INT_MAX`. -/
def wrap_int32 (x : Int) : Int :=
  (x + 2 ^ 31) % 2 ^ 32 - 2 ^ 31

/-- GLib `g_hash_table_lookup` with direct keys: the value stored under
`key`, `none` for `NULL`. -/
def g_hash_table_lookup (m : List (Int × NotifyNotification)) (key : Int) :
    Option NotifyNotification :=
  match m with
  | [] => none
  | (k, v) :: rest => if k = key then some v else g_hash_table_lookup rest key

/-- GLib `g_hash_table_remove`: drop the entry of `key`. -/
def g_hash_table_remove (m : List (Int × NotifyNotification)) (key : Int) :
    List (Int × NotifyNotification) :=
  m.filter (fun e => decide (e.1 ≠ key))

/-- GLib `g_hash_table_insert`: store `v` under `key`, replacing an entry
of the same key. -/
def g_hash_table_insert (m : List (Int × NotifyNotification)) (key : Int)
    (v : NotifyNotification) : List (Int × NotifyNotification) :=
  (key, v) :: g_hash_table_remove m key

/-- In-place change of the object stored under `key` (the table holds a
pointer to it). -/
def updateNotification (m : List (Int × NotifyNotification)) (key : Int)
    (f : NotifyNotification → NotifyNotification) : List (Int × NotifyNotification) :=
  m.map (fun e => if e.1 = key then (e.1, f e.2) else e)

/-- Library call `notify_notification_add_action`: libnotify returns at
once on an empty action key or an empty label, and else records the action
with its callback and `user_data`. -/
def notify_notification_add_action (n : NotifyNotification) (action label : String)
    (callback : ActionCallback) (user_data : Int) : NotifyNotification :=
  if action = "" ∨ label = "" then n
  else
    { n with actions := n.actions ++
        [{ action := action, label := label, callback := callback, user_data := user_data }] }

/-- JNI entry point `init`: `1` when libnotify is already initialised, else
the result of `notify_init` (`initOk`). -/
def init (r : Registry) (initOk : Bool) : Registry × Int :=
  if r.initted then (r, 1)
  else ({ r with initted := initOk }, if initOk then 1 else 0)

/-- JNI entry point `createNotification`; `newOk` says whether
`notify_notification_new` returned an object. A `NULL` summary or body
reads as the empty string. -/
def createNotification (r : Registry) (jsummary jbody jicon_path : Option String)
    (newOk : Bool) : Registry × Int :=
  if r.initted = false then (r, -1)
  else if newOk = false then (r, -1)
  else
    let ptr_value := wrap_int32 (r.notification_id + 1)
    let notification : NotifyNotification :=
      { summary := jsummary.getD "", body := jbody.getD "", icon := jicon_path,
        actions := [], image := none, closed_handlers := [], shown := false }
    ({ r with notification_id := ptr_value,
              notifications_map :=
                g_hash_table_insert r.notifications_map ptr_value notification },
     ptr_value)

/-- JNI entry point `addButtonToNotification` (returns `void`). -/
def addButtonToNotification (r : Registry) (notification_ptr : Int)
    (jbutton_id jbutton_label : Option String) : Registry :=
  match g_hash_table_lookup r.notifications_map notification_ptr with
  | none => r
  | some _ =>
    { r with notifications_map :=
        updateNotification r.notifications_map notification_ptr (fun n =>
          notify_notification_add_action n (jbutton_id.getD "") (jbutton_label.getD "")
            ActionCallback.button_action_callback notification_ptr) }

/-- JNI entry point `setNotificationClickedCallback` (returns `void`);
`methodId` is what `GetMethodID` returns for the new callback. -/
def setNotificationClickedCallback (r : Registry) (notification_ptr : Int)
    (callback : Option Nat) (methodId : Option Nat) : Registry :=
  let r1 :=
    if r.g_clickedCallbackObj.isSome then
      { r with g_clickedCallbackObj := none, g_clickedMethod := none }
    else r
  let r2 :=
    match callback with
    | some cb => { r1 with g_clickedCallbackObj := some cb, g_clickedMethod := methodId }
    | none => r1
  match g_hash_table_lookup r2.notifications_map notification_ptr, callback with
  | some _, some _ =>
    { r2 with notifications_map :=
        updateNotification r2.notifications_map notification_ptr (fun n =>
          notify_notification_add_action n "default" "Default"
            ActionCallback.default_click_callback notification_ptr) }
  | _, _ => r2

/-- JNI entry point `setNotificationClosedCallback` (returns `void`). -/
def setNotificationClosedCallback (r : Registry) (notification_ptr : Int)
    (callback : Option Nat) (methodId : Option Nat) : Registry :=
  let r1 :=
    if r.g_closedCallbackObj.isSome then
      { r with g_closedCallbackObj := none, g_closedMethod := none }
    else r
  let r2 :=
    match callback with
    | some cb => { r1 with g_closedCallbackObj := some cb, g_closedMethod := methodId }
    | none => r1
  match g_hash_table_lookup r2.notifications_map notification_ptr, callback with
  | some _, some _ =>
    { r2 with notifications_map :=
        updateNotification r2.notifications_map notification_ptr (fun n =>
          { n with closed_handlers := n.closed_handlers ++ [notification_ptr] }) }
  | _, _ => r2

/-- JNI entry point `setButtonCallback` (returns `void`). -/
def setButtonCallback (r : Registry) (callback : Option Nat) (methodId : Option Nat) :
    Registry :=
  let r1 :=
    if r.g_buttonCallbackObj.isSome then
      { r with g_buttonCallbackObj := none, g_buttonMethod := none }
    else r
  match callback with
  | some cb => { r1 with g_buttonCallbackObj := some cb, g_buttonMethod := methodId }
  | none => r1

/-- JNI entry point `setNotificationImage` (returns `void`); `loaded` says
whether `gdk_pixbuf_new_from_file` returned a pixbuf. -/
def setNotificationImage (r : Registry) (notification_ptr : Int)
    (jimage_path : Option String) (loaded : Bool) : Registry :=
  match g_hash_table_lookup r.notifications_map notification_ptr with
  | none => r
  | some _ =>
    match jimage_path with
    | none => r
    | some image_path =>
      if loaded then
        { r with notifications_map :=
            updateNotification r.notifications_map notification_ptr (fun n =>
              { n with image := some image_path }) }
      else r

/-- JNI entry point `sendNotification`; `showOk` is the result of
`notify_notification_show`. -/
def sendNotification (r : Registry) (notification_ptr : Int) (showOk : Bool) :
    Registry × Int :=
  match g_hash_table_lookup r.notifications_map notification_ptr with
  | none => (r, -1)
  | some _ =>
    if showOk = false then (r, -1)
    else
      ({ r with notifications_map :=
          updateNotification r.notifications_map notification_ptr (fun n =>
            { n with shown := true }) }, 0)

/-- JNI entry point `closeNotification`; `closeOk` is the result of
`notify_notification_close`. -/
def closeNotification (r : Registry) (notification_ptr : Int) (closeOk : Bool) :
    Registry × Int :=
  match g_hash_table_lookup r.notifications_map notification_ptr with
  | none => (r, -1)
  | some _ =>
    if closeOk = false then (r, -1)
    else
      ({ r with notifications_map :=
          g_hash_table_remove r.notifications_map notification_ptr }, 0)

/-- JNI entry point `cleanupNotification` (returns `void`): release the
object when there is one, remove the key in any case. -/
def cleanupNotification (r : Registry) (notification_ptr : Int) : Registry :=
  { r with notifications_map := g_hash_table_remove r.notifications_map notification_ptr }

/-- A call of one of the JNI entry points of the bridge, with its
arguments and the results of the library calls it makes. -/
inductive RegistryCall where
  | init (initOk : Bool)
  | create (jsummary jbody jicon_path : Option String) (newOk : Bool)
  | addButton (notification_ptr : Int) (jbutton_id jbutton_label : Option String)
  | setClicked (notification_ptr : Int) (callback methodId : Option Nat)
  | setClosed (notification_ptr : Int) (callback methodId : Option Nat)
  | setButton (callback methodId : Option Nat)
  | setImage (notification_ptr : Int) (jimage_path : Option String) (loaded : Bool)
  | send (notification_ptr : Int) (showOk : Bool)
  | close (notification_ptr : Int) (closeOk : Bool)
  | cleanupOne (notification_ptr : Int)
  deriving DecidableEq, Repr

/-- Effect of one call on the registry, with the id it issued when it is a
`createNotification` that got past its two failure returns. -/
def applyCall (r : Registry) (c : RegistryCall) : Registry × Option Int :=
  match c with
  | RegistryCall.init initOk => ((init r initOk).1, none)
  | RegistryCall.create jsummary jbody jicon_path newOk =>
    if r.initted = false then (r, none)
    else if newOk = false then (r, none)
    else
      ((createNotification r jsummary jbody jicon_path newOk).1,
       some (createNotification r jsummary jbody jicon_path newOk).2)
  | RegistryCall.addButton p i l => (addButtonToNotification r p i l, none)
  | RegistryCall.setClicked p cb m => (setNotificationClickedCallback r p cb m, none)
  | RegistryCall.setClosed p cb m => (setNotificationClosedCallback r p cb m, none)
  | RegistryCall.setButton cb m => (setButtonCallback r cb m, none)
  | RegistryCall.setImage p path loaded => (setNotificationImage r p path loaded, none)
  | RegistryCall.send p ok => ((sendNotification r p ok).1, none)
  | RegistryCall.close p ok => ((closeNotification r p ok).1, none)
  | RegistryCall.cleanupOne p => (cleanupNotification r p, none)

/-- Run a sequence of calls: the final registry and the ids issued, oldest
first. -/
def runCalls (r : Registry) : List RegistryCall → Registry × List Int
  | [] => (r, [])
  | c :: rest =>
    match (applyCall r c).2 with
    | none => runCalls (applyCall r c).1 rest
    | some id => ((runCalls (applyCall r c).1 rest).1, id :: (runCalls (applyCall r c).1 rest).2)

/-! ## Notification events: callbacks run by the event loop -/

/-- A `CallVoidMethod` made by the bridge on one of the process-wide
callback objects: the object, the method id and the arguments passed (the
trailing `(jlong)NULL` left out). -/
inductive JavaCall where
  | clicked (obj method : Nat) (notification_ptr : Int)
  | closed (obj method : Nat) (notification_ptr : Int)
  | button (obj method : Nat) (notification_ptr : Int) (button_label : String)
  deriving DecidableEq, Repr

/-- Source function `invoke_clicked_callback`; `envOk` says whether
`get_jni_env` returned an environment. -/
def invoke_clicked_callback (r : Registry) (envOk : Bool) (notification_ptr : Int) :
    List JavaCall :=
  match r.g_clickedCallbackObj, r.g_clickedMethod with
  | some obj, some method =>
    if envOk then [JavaCall.clicked obj method notification_ptr] else []
  | _, _ => []

/-- Source function `invoke_closed_callback`. -/
def invoke_closed_callback (r : Registry) (envOk : Bool) (notification_ptr : Int) :
    List JavaCall :=
  match r.g_closedCallbackObj, r.g_closedMethod with
  | some obj, some method =>
    if envOk then [JavaCall.closed obj method notification_ptr] else []
  | _, _ => []

/-- Source function `invoke_button_callback`. -/
def invoke_button_callback (r : Registry) (envOk : Bool) (notification_ptr : Int)
    (button_label : String) : List JavaCall :=
  match r.g_buttonCallbackObj, r.g_buttonMethod with
  | some obj, some method =>
    if envOk then [JavaCall.button obj method notification_ptr button_label] else []
  | _, _ => []

/-- Source function `button_action_callback`: the registry after it and the
Java calls it made. -/
def button_action_callback (r : Registry) (envOk : Bool) (action : String)
    (user_data : Int) : Registry × List JavaCall :=
  (r, invoke_button_callback r envOk user_data action)

/-- Source function `default_click_callback`. -/
def default_click_callback (r : Registry) (envOk : Bool) (_action : String)
    (user_data : Int) : Registry × List JavaCall :=
  (r, invoke_clicked_callback r envOk user_data)

/-- Source function `notification_closed_callback`. -/
def notification_closed_callback (r : Registry) (envOk : Bool) (user_data : Int) :
    Registry × List JavaCall :=
  (r, invoke_closed_callback r envOk user_data)

/-- The callback libnotify keeps for an action key: each
`notify_notification_add_action` stores its callback under the key,
replacing an earlier one, so the latest registration of the key counts. -/
def action_map_lookup : List NotifyAction → String → Option NotifyAction
  | [], _ => none
  | a :: rest, key =>
    match action_map_lookup rest key with
    | some b => some b
    | none => if a.action = key then some a else none

/-- Service event "action invoked" for the notification stored under `id`:
libnotify calls the callback kept for the action key, with the key and
the `user_data` of its registration. -/
def actionInvoked (r : Registry) (envOk : Bool) (id : Int) (action : String) :
    Registry × List JavaCall :=
  match g_hash_table_lookup r.notifications_map id with
  | none => (r, [])
  | some n =>
    match action_map_lookup n.actions action with
    | none => (r, [])
    | some a =>
      match a.callback with
      | ActionCallback.button_action_callback =>
        button_action_callback r envOk action a.user_data
      | ActionCallback.default_click_callback =>
        default_click_callback r envOk action a.user_data

/-- Service event "closed" for the notification stored under `id`: every
handler connected to the signal runs in turn with its `user_data`. -/
def closedSignal (r : Registry) (envOk : Bool) (id : Int) : Registry × List JavaCall :=
  match g_hash_table_lookup r.notifications_map id with
  | none => (r, [])
  | some n =>
    n.closed_handlers.foldl
      (fun acc user_data =>
        ((notification_closed_callback acc.1 envOk user_data).1,
         acc.2 ++ (notification_closed_callback acc.1 envOk user_data).2))
      (r, [])

/-- Whether a call leaves the button registration of action key `action`
on notification `id` in place: it does not remove the entry of `id`, and
it is not a clicked-callback registration on `id` when the key is
"default". -/
def keepsAction (id : Int) (action : String) : RegistryCall → Bool
  | RegistryCall.close p ok => decide (p ≠ id) || !ok
  | RegistryCall.cleanupOne p => decide (p ≠ id)
  | RegistryCall.setClicked p cb _ =>
    decide (p ≠ id) || cb.isNone || decide (action ≠ "default")
  | _ => true

/-- The callback libnotify keeps for `action` on the notification is
`button_action_callback`, registered with `id` as `user_data`. -/
def HasButton (n : NotifyNotification) (id : Int) (action : String) : Prop :=
  ∃ a, action_map_lookup n.actions action = some a ∧
    a.callback = ActionCallback.button_action_callback ∧ a.user_data = id

/-- The table has an entry for `id` whose callback for `action` is the
button callback registered by `addButtonToNotification` on `id`. -/
def ButtonKept (m : List (Int × NotifyNotification)) (id : Int) (action : String) : Prop :=
  ∃ n, g_hash_table_lookup m id = some n ∧ HasButton n id action

/-- The scenario of the specification: initialise, register button
callback 7, create("Hi","There"), addButton(1,"ok","OK"), show(1). -/
def scenarioCalls : List RegistryCall :=
  [RegistryCall.init true,
   RegistryCall.setButton (some 7) (some 70),
   RegistryCall.create (some "Hi") (some "There") none true,
   RegistryCall.addButton 1 (some "ok") (some "OK"),
   RegistryCall.send 1 true]

/-- A sequence of calls used as an example: a button with the action key
"default" is added, then a clicked callback is set on the same id. -/
def defaultKeyCalls : List RegistryCall :=
  [RegistryCall.init true,
   RegistryCall.setButton (some 7) (some 70),
   RegistryCall.create (some "Hi") (some "There") none true,
   RegistryCall.addButton 1 (some "default") (some "Open"),
   RegistryCall.setClicked 1 (some 5) (some 50),
   RegistryCall.send 1 true]

/-- A sequence of calls used as an example: a notification is created,
closed callback 6 is set on it, and it is shown. -/
def closedCallbackCalls : List RegistryCall :=
  [RegistryCall.init true,
   RegistryCall.create (some "Hi") (some "There") none true,
   RegistryCall.setClosed 1 (some 6) (some 60),
   RegistryCall.send 1 true]

/-- A long sequence of calls used as an example: `init`, then 2147483647
successful `createNotification` calls. -/
def manyCreates : List RegistryCall :=
  RegistryCall.init true ::
    List.replicate 2147483647 (RegistryCall.create none none none true)

/-- A registry used as an example: initialised, one notification created
under id 1, clicked callback 5 installed. -/
def sampleRegistry : Registry :=
  (runCalls Registry.fresh
    [RegistryCall.init true,
     RegistryCall.create (some "Hi") (some "There") none true,
     RegistryCall.setClicked 1 (some 5) (some 50)]).1

/-! ## Theme reader: decoding and fail-soft result -/

theorem int_of_uint32_of_lt (c : Nat) (hc : c < 2 ^ 32) :
    int_of_uint32 c = if c < 2 ^ 31 then (c : Int) else (c : Int) - 2 ^ 32 := by
  unfold int_of_uint32
  rw [Nat.mod_eq_of_lt hc]

theorem int_of_uint32_eq_one_iff (c : Nat) (hc : c < 2 ^ 32) :
    int_of_uint32 c = 1 ↔ c = 1 := by
  rw [int_of_uint32_of_lt c hc]
  split <;> omega

theorem int_of_uint32_nonneg_iff (c : Nat) (hc : c < 2 ^ 32) :
    0 ≤ int_of_uint32 c ↔ c < 2 ^ 31 := by
  rw [int_of_uint32_of_lt c hc]
  split <;> omega

theorem read_color_scheme_eq_true_iff (bus : SessionBus) :
    read_color_scheme bus = true ↔
      bus.conn = true ∧ bus.msg = true ∧
        ∃ reply, bus.reply = some reply ∧ extract_color_scheme reply = 1 := by
  unfold read_color_scheme
  cases hconn : bus.conn <;> cases hmsg : bus.msg <;> cases hreply : bus.reply <;> simp

/-- C1, as stated, fails: the reader returns the same value for the codes
0 and 2, so no reading of its boolean result yields NoPreference for code
0, Dark for code 1 and Light for code 2. -/
theorem read_color_scheme_cannot_tell_light :
    ¬ ∃ f : Bool → ThemePreference,
      f (read_color_scheme (busWithReply (replyWith
          [DBusValue.variant (DBusValue.variant (DBusValue.uint32 0))])))
        = ThemePreference.NoPreference ∧
      f (read_color_scheme (busWithReply (replyWith
          [DBusValue.variant (DBusValue.variant (DBusValue.uint32 1))])))
        = ThemePreference.Dark ∧
      f (read_color_scheme (busWithReply (replyWith
          [DBusValue.variant (DBusValue.variant (DBusValue.uint32 2))])))
        = ThemePreference.Light := by
  rintro ⟨f, h0, _, h2⟩
  have e0 : read_color_scheme (busWithReply (replyWith
      [DBusValue.variant (DBusValue.variant (DBusValue.uint32 0))])) = false := by decide
  have e2 : read_color_scheme (busWithReply (replyWith
      [DBusValue.variant (DBusValue.variant (DBusValue.uint32 2))])) = false := by decide
  rw [e0] at h0
  rw [e2, h0] at h2
  exact absurd h2 (by decide)

/-- C1, amended: for a reply carrying the 32-bit code c in either accepted
shape, `read_color_scheme` and `nativeIsDark` return true exactly when
c = 1 (so 0, 2 and every other code give false), and a reply that
`extract_color_scheme` fails to decode (result -1) gives false. -/
theorem read_color_scheme_dark_iff_code_one (c : Nat) (rest : List DBusValue)
    (hc : c < 2 ^ 32) :
    read_color_scheme (busWithReply (replyWith
        (DBusValue.variant (DBusValue.variant (DBusValue.uint32 c)) :: rest)))
      = decide (c = 1) ∧
    read_color_scheme (busWithReply (replyWith
        (DBusValue.variant (DBusValue.uint32 c) :: rest)))
      = decide (c = 1) ∧
    nativeIsDark (busWithReply (replyWith
        (DBusValue.variant (DBusValue.variant (DBusValue.uint32 c)) :: rest)))
      = decide (c = 1) ∧
    ∀ reply, extract_color_scheme reply = -1 →
      read_color_scheme (busWithReply reply) = false := by
  have h1 := int_of_uint32_eq_one_iff c hc
  refine ⟨?_, ?_, ?_, ?_⟩
  · by_cases hone : c = 1
    · subst hone
      simp [nativeIsDark, read_color_scheme, busWithReply, replyWith, extract_color_scheme,
        (by decide : int_of_uint32 1 = 1)]
    · simp [read_color_scheme, busWithReply, replyWith, extract_color_scheme, h1, hone]
  · by_cases hone : c = 1
    · subst hone
      simp [nativeIsDark, read_color_scheme, busWithReply, replyWith, extract_color_scheme,
        (by decide : int_of_uint32 1 = 1)]
    · simp [read_color_scheme, busWithReply, replyWith, extract_color_scheme, h1, hone]
  · by_cases hone : c = 1
    · subst hone
      simp [nativeIsDark, read_color_scheme, busWithReply, replyWith, extract_color_scheme,
        (by decide : int_of_uint32 1 = 1)]
    · simp [nativeIsDark, read_color_scheme, busWithReply, replyWith, extract_color_scheme,
        h1, hone]
  · intro reply hfail
    simp [read_color_scheme, busWithReply, hfail]

/-- Instance of `read_color_scheme_dark_iff_code_one` at code 2 (prefer-light): not dark. -/
theorem read_color_scheme_dark_iff_code_one_witness :
    (2 : Nat) < 2 ^ 32 ∧
    read_color_scheme (busWithReply (replyWith
        (DBusValue.variant (DBusValue.variant (DBusValue.uint32 2)) :: [])))
      = decide (2 = 1) :=
  ⟨by decide, (read_color_scheme_dark_iff_code_one 2 [] (by decide)).1⟩

/-- C2, as stated, fails: the doubly wrapped code 4294967295 does not
decode to 4294967295 but to -1, the decode-failure result. -/
theorem extract_color_scheme_large_code :
    extract_color_scheme (replyWith
        [DBusValue.variant (DBusValue.variant (DBusValue.uint32 4294967295))]) ≠ 4294967295 ∧
    extract_color_scheme (replyWith
        [DBusValue.variant (DBusValue.variant (DBusValue.uint32 4294967295))]) = -1 := by
  decide

/-- C2, amended: a reply whose first argument is variant(variant(uint32 c))
or variant(uint32 c) decodes to c read as a signed 32-bit int (c itself
below 2^31, c - 2^32 from 2^31 on); a reply of any other shape decodes to
-1, a doubly wrapped value that is not a uint32 included. -/
theorem extract_color_scheme_two_shapes (c : Nat) (rest : List DBusValue)
    (hc : c < 2 ^ 32) :
    (∀ reply : DBusMessage,
      reply.args = DBusValue.variant (DBusValue.variant (DBusValue.uint32 c)) :: rest →
      extract_color_scheme reply = if c < 2 ^ 31 then (c : Int) else (c : Int) - 2 ^ 32) ∧
    (∀ reply : DBusMessage,
      reply.args = DBusValue.variant (DBusValue.uint32 c) :: rest →
      extract_color_scheme reply = if c < 2 ^ 31 then (c : Int) else (c : Int) - 2 ^ 32) ∧
    (∀ reply : DBusMessage,
      (∀ v r, reply.args ≠ DBusValue.variant (DBusValue.variant (DBusValue.uint32 v)) :: r) →
      (∀ v r, reply.args ≠ DBusValue.variant (DBusValue.uint32 v) :: r) →
      extract_color_scheme reply = -1) ∧
    (∀ reply : DBusMessage, ∀ x r,
      reply.args = DBusValue.variant (DBusValue.variant x) :: r →
      (∀ v, x ≠ DBusValue.uint32 v) → extract_color_scheme reply = -1) := by
  refine ⟨?_, ?_, ?_, ?_⟩
  · intro reply hargs
    simp only [extract_color_scheme, hargs]
    exact int_of_uint32_of_lt c hc
  · intro reply hargs
    simp only [extract_color_scheme, hargs]
    exact int_of_uint32_of_lt c hc
  · intro reply hdouble hsingle
    unfold extract_color_scheme
    split
    · rfl
    · next outer r hargs =>
      split
      · next inner =>
        split
        · next v => exact absurd hargs (hdouble v r)
        · rfl
      · next v => exact absurd hargs (hsingle v r)
      · rfl
    · rfl
  · intro reply x r hargs hx
    cases x with
    | uint32 v => exact absurd rfl (hx v)
    | string s => simp only [extract_color_scheme, hargs]
    | variant y => simp only [extract_color_scheme, hargs]
    | other t => simp only [extract_color_scheme, hargs]

/-- Instance of `extract_color_scheme_two_shapes` at the singly wrapped code 2. -/
theorem extract_color_scheme_two_shapes_witness :
    (2 : Nat) < 2 ^ 32 ∧
    extract_color_scheme (replyWith [DBusValue.variant (DBusValue.uint32 2)]) =
      if 2 < 2 ^ 31 then ((2 : Nat) : Int) else ((2 : Nat) : Int) - 2 ^ 32 :=
  ⟨by decide, (extract_color_scheme_two_shapes 2 [] (by decide)).2.1
    (replyWith [DBusValue.variant (DBusValue.uint32 2)]) rfl⟩

/-- C3: `read_color_scheme` returns one of the two boolean values on every
outcome of the bus calls (it has no error result), and it returns false
(not dark) whenever the connection is not obtained, the request cannot be
built, no reply arrives, or the reply fails to decode; `nativeIsDark`
passes that value on. -/
theorem read_color_scheme_fail_soft (bus : SessionBus) :
    (read_color_scheme bus = true ∨ read_color_scheme bus = false) ∧
    nativeIsDark bus = read_color_scheme bus ∧
    (bus.conn = false ∨ bus.msg = false ∨ bus.reply = none ∨
        (∃ reply, bus.reply = some reply ∧ extract_color_scheme reply = -1) →
      read_color_scheme bus = false) := by
  refine ⟨?_, rfl, ?_⟩
  · cases read_color_scheme bus
    · exact Or.inr rfl
    · exact Or.inl rfl
  · intro hfail
    have hne : ¬ read_color_scheme bus = true := by
      rw [read_color_scheme_eq_true_iff]
      rintro ⟨hconn, hmsg, reply, hreply, hone⟩
      rcases hfail with h | h | h | ⟨reply2, h, hminus⟩
      · rw [hconn] at h; exact absurd h (by decide)
      · rw [hmsg] at h; exact absurd h (by decide)
      · rw [hreply] at h; exact absurd h (by simp)
      · rw [hreply] at h
        have heq : reply = reply2 := Option.some.inj h
        rw [heq, hminus] at hone
        exact absurd hone (by decide)
    cases hval : read_color_scheme bus
    · rfl
    · exact absurd hval hne

/-- Instances of `read_color_scheme_fail_soft`: no reply, and a reply that is a bare string. -/
theorem read_color_scheme_fail_soft_witness :
    read_color_scheme { conn := true, msg := true, reply := none } = false ∧
    read_color_scheme (busWithReply (replyWith [DBusValue.string "dark"])) = false :=
  ⟨(read_color_scheme_fail_soft { conn := true, msg := true, reply := none }).2.2
      (Or.inr (Or.inr (Or.inl rfl))),
   (read_color_scheme_fail_soft (busWithReply (replyWith [DBusValue.string "dark"]))).2.2
      (Or.inr (Or.inr (Or.inr ⟨replyWith [DBusValue.string "dark"], rfl, by decide⟩)))⟩

/-! ## Theme watcher: filtering and forwarding of signals -/

/-- C4: a message whose first two fields are strings ns and key with
ns different from the appearance namespace or key different from
color-scheme makes `extract_signal_color_scheme` return -1, whatever
follows; the worker then makes no `notify_java` call for it, neither in
`handle_message` nor in the step of `monitor_thread` that pops it. -/
theorem mismatched_signal_discarded (msg : DBusMessage) (ns key : String)
    (rest : List DBusValue) (queue : List DBusMessage) (g_running : Bool) (inp : BusInput)
    (hargs : msg.args = DBusValue.string ns :: DBusValue.string key :: rest)
    (hmis : ns ≠ APPEARANCE_NS ∨ key ≠ COLOR_SCHEME) :
    extract_signal_color_scheme msg = -1 ∧
    handle_message msg = [] ∧
    monitor_thread_step g_running (WorkerPc.draining (msg :: queue)) inp =
      some (WorkerPc.draining queue, []) := by
  have hext : extract_signal_color_scheme msg = -1 := by
    unfold extract_signal_color_scheme
    rw [hargs]
    by_cases hns : ns = APPEARANCE_NS
    · have hkey : key ≠ COLOR_SCHEME := by
        rcases hmis with h | h
        · exact absurd hns h
        · exact h
      simp [hns, hkey]
    · simp [hns]
  have hhandle : handle_message msg = [] := by
    unfold handle_message
    simp [hext]
  exact ⟨hext, hhandle, by simp [monitor_thread_step, hhandle]⟩

/-- Instance of `mismatched_signal_discarded` at a signal of another namespace. -/
theorem mismatched_signal_discarded_witness :
    extract_signal_color_scheme (settingChanged
        [DBusValue.string "org.gnome.desktop.interface", DBusValue.string "color-scheme",
          DBusValue.variant (DBusValue.uint32 1)]) = -1 ∧
    handle_message (settingChanged
        [DBusValue.string "org.gnome.desktop.interface", DBusValue.string "color-scheme",
          DBusValue.variant (DBusValue.uint32 1)]) = [] ∧
    monitor_thread_step true (WorkerPc.draining ((settingChanged
        [DBusValue.string "org.gnome.desktop.interface", DBusValue.string "color-scheme",
          DBusValue.variant (DBusValue.uint32 1)]) :: [])) BusInput.fail =
      some (WorkerPc.draining [], []) :=
  mismatched_signal_discarded
    (settingChanged
        [DBusValue.string "org.gnome.desktop.interface", DBusValue.string "color-scheme",
          DBusValue.variant (DBusValue.uint32 1)])
    "org.gnome.desktop.interface" "color-scheme" [DBusValue.variant (DBusValue.uint32 1)]
    [] true BusInput.fail rfl (Or.inl (by decide))

/-- C5, as stated, fails: an appearance/color-scheme signal carrying the
code 3 is not dropped; the worker calls `notify_java` for it, with
isDark = false. -/
theorem unknown_code_is_forwarded :
    extract_signal_color_scheme (settingChanged
        [DBusValue.string APPEARANCE_NS, DBusValue.string COLOR_SCHEME,
          DBusValue.variant (DBusValue.uint32 3)]) = 3 ∧
    handle_message (settingChanged
        [DBusValue.string APPEARANCE_NS, DBusValue.string COLOR_SCHEME,
          DBusValue.variant (DBusValue.uint32 3)]) = [false] := by
  decide

/-- C5, amended: for a SettingChanged signal of the settings interface,
with namespace and key matching, whose third field is variant(uint32 c):
when c is below 2^31 the worker calls `notify_java` once with
isDark = (c = 1), also for codes other than 0, 1, 2; from 2^31 on it
makes no call. When the third field is not a variant holding a uint32,
decoding fails with -1 and no call is made. Every call the worker makes for
a message comes from such a decoded code. -/
theorem signal_code_forwarding (c : Nat) (rest : List DBusValue) (hc : c < 2 ^ 32) :
    handle_message (settingChanged
        (DBusValue.string APPEARANCE_NS :: DBusValue.string COLOR_SCHEME ::
          DBusValue.variant (DBusValue.uint32 c) :: rest))
      = (if c < 2 ^ 31 then [decide (c = 1)] else []) ∧
    (∀ third : DBusValue, (∀ v, third ≠ DBusValue.variant (DBusValue.uint32 v)) →
      extract_signal_color_scheme (settingChanged
          (DBusValue.string APPEARANCE_NS :: DBusValue.string COLOR_SCHEME :: third :: rest))
        = -1 ∧
      handle_message (settingChanged
          (DBusValue.string APPEARANCE_NS :: DBusValue.string COLOR_SCHEME :: third :: rest))
        = []) ∧
    (∀ (msg : DBusMessage) (isDark : Bool), isDark ∈ handle_message msg →
      ∃ v r, msg.args = DBusValue.string APPEARANCE_NS :: DBusValue.string COLOR_SCHEME ::
          DBusValue.variant (DBusValue.uint32 v) :: r ∧
        0 ≤ int_of_uint32 v ∧ isDark = decide (int_of_uint32 v = 1)) := by
  refine ⟨?_, ?_, ?_⟩
  · have hsig : dbus_message_is_signal (settingChanged
        (DBusValue.string APPEARANCE_NS :: DBusValue.string COLOR_SCHEME ::
          DBusValue.variant (DBusValue.uint32 c) :: rest)) PORTAL_IFACE "SettingChanged"
        = true := by
      simp [dbus_message_is_signal, settingChanged]
    have hext : extract_signal_color_scheme (settingChanged
        (DBusValue.string APPEARANCE_NS :: DBusValue.string COLOR_SCHEME ::
          DBusValue.variant (DBusValue.uint32 c) :: rest)) = int_of_uint32 c := by
      simp [extract_signal_color_scheme, settingChanged]
    unfold handle_message
    rw [hsig, hext]
    have hnn := int_of_uint32_nonneg_iff c hc
    have hone := int_of_uint32_eq_one_iff c hc
    by_cases hlt : c < 2 ^ 31
    · have h0 : int_of_uint32 c ≥ 0 := hnn.mpr hlt
      rw [if_pos h0, if_pos hlt]
      by_cases h1 : c = 1
      · rw [decide_eq_true (hone.mpr h1), decide_eq_true h1]
        rfl
      · have hne : ¬ int_of_uint32 c = 1 := fun h => h1 (hone.mp h)
        rw [decide_eq_false hne, decide_eq_false h1]
        rfl
    · have h0 : ¬ int_of_uint32 c ≥ 0 := fun h => hlt (hnn.mp h)
      rw [if_neg h0, if_neg hlt]
      rfl
  · intro third hthird
    have hext : extract_signal_color_scheme (settingChanged
        (DBusValue.string APPEARANCE_NS :: DBusValue.string COLOR_SCHEME :: third :: rest))
        = -1 := by
      cases third with
      | uint32 v => simp [extract_signal_color_scheme, settingChanged]
      | string s => simp [extract_signal_color_scheme, settingChanged]
      | other t => simp [extract_signal_color_scheme, settingChanged]
      | variant content =>
        cases content with
        | uint32 v => exact absurd rfl (hthird v)
        | string s => simp [extract_signal_color_scheme, settingChanged]
        | other t => simp [extract_signal_color_scheme, settingChanged]
        | variant y => simp [extract_signal_color_scheme, settingChanged]
    refine ⟨hext, ?_⟩
    unfold handle_message
    simp [hext]
  · intro msg isDark hmem
    unfold handle_message at hmem
    split at hmem
    · simp only at hmem
      split at hmem
      · next hge =>
        have hval : isDark = decide (extract_signal_color_scheme msg = 1) := by
          simpa using hmem
        have hshape : ∃ v r, msg.args = DBusValue.string APPEARANCE_NS ::
            DBusValue.string COLOR_SCHEME :: DBusValue.variant (DBusValue.uint32 v) :: r ∧
            extract_signal_color_scheme msg = int_of_uint32 v := by
          by_contra hno
          have hminus : extract_signal_color_scheme msg = -1 := by
            unfold extract_signal_color_scheme
            split
            · rfl
            · next ns rest1 hargs =>
              split
              · rfl
              · next hns =>
                have hns2 : ns = APPEARANCE_NS := not_not.mp hns
                split
                · rfl
                · next key rest2 =>
                  split
                  · rfl
                  · next hkey =>
                    have hkey2 : key = COLOR_SCHEME := not_not.mp hkey
                    split
                    · rfl
                    · next content r3 =>
                      split
                      · next v =>
                        exfalso
                        apply hno
                        refine ⟨v, r3, ?_, ?_⟩
                        · rw [hargs, hns2, hkey2]
                        · simp [extract_signal_color_scheme, hargs, hns2, hkey2]
                      · rfl
                    · rfl
                · rfl
            · rfl
          rw [hminus] at hge
          exact absurd hge (by decide)
        obtain ⟨v, r, hargs, hext⟩ := hshape
        exact ⟨v, r, hargs, by rw [← hext]; exact hge, by rw [← hext]; exact hval⟩
      · simp at hmem
    · simp at hmem

/-- Instance of `signal_code_forwarding` at code 3. -/
theorem signal_code_forwarding_witness :
    (3 : Nat) < 2 ^ 32 ∧
    handle_message (settingChanged
        (DBusValue.string APPEARANCE_NS :: DBusValue.string COLOR_SCHEME ::
          DBusValue.variant (DBusValue.uint32 3) :: []))
      = (if 3 < 2 ^ 31 then [decide (3 = 1)] else []) :=
  ⟨by decide, (signal_code_forwarding 3 [] (by decide)).1⟩

/-! ## Theme watcher: start, stop and the worker thread -/

theorem watcherInv_init : WatcherInv Watcher.init := by
  refine ⟨?_, ?_, ?_⟩
  · intro pc hpc
    simp [Watcher.init] at hpc
  · intro _ _ pc hpc
    simp [Watcher.init] at hpc
  · intro h
    simp [Watcher.init] at h

theorem monitor_thread_step_exited (g : Bool) (inp : BusInput) :
    monitor_thread_step g WorkerPc.exited inp = none := rfl

theorem noNotifyAfterStop_append (q : Bool) (evs evs2 : List Event) :
    noNotifyAfterStop q (evs ++ evs2) =
      (noNotifyAfterStop q evs && noNotifyAfterStop (quietAfter q evs) evs2) := by
  induction evs generalizing q with
  | nil => simp [noNotifyAfterStop, quietAfter]
  | cons e rest ih =>
    cases e with
    | startCalled => simp [noNotifyAfterStop, quietAfter, ih]
    | stopReturned => simp [noNotifyAfterStop, quietAfter, ih]
    | notify_java b => simp [noNotifyAfterStop, quietAfter, ih, Bool.and_assoc]

theorem quietAfter_append (q : Bool) (evs evs2 : List Event) :
    quietAfter q (evs ++ evs2) = quietAfter (quietAfter q evs) evs2 := by
  induction evs generalizing q with
  | nil => simp [quietAfter]
  | cons e rest ih =>
    cases e with
    | startCalled => simp [quietAfter, ih]
    | stopReturned => simp [quietAfter, ih]
    | notify_java b => simp [quietAfter, ih]

theorem noNotifyAfterStop_notifications (calls : List Bool) :
    noNotifyAfterStop false (calls.map Event.notify_java) = true ∧
    quietAfter false (calls.map Event.notify_java) = false := by
  induction calls with
  | nil => simp [noNotifyAfterStop, quietAfter]
  | cons b rest ih => simp [noNotifyAfterStop, quietAfter, ih.1, ih.2]

theorem liveWorkers_eq_zero (w : Watcher) (hall : ∀ pc ∈ w.threads, pc = WorkerPc.exited) :
    liveWorkers w = 0 := by
  unfold liveWorkers
  rw [List.length_eq_zero, List.filter_eq_nil_iff]
  intro a ha
  simp [hall a ha]

theorem liveWorkers_le_one (w : Watcher) (hinv : WatcherInv w) : liveWorkers w ≤ 1 := by
  obtain ⟨htail, _, _⟩ := hinv
  unfold liveWorkers
  cases hthreads : w.threads with
  | nil => simp
  | cons pc rest =>
    rw [hthreads] at htail
    have hrest : rest.filter (fun pc => decide (pc ≠ WorkerPc.exited)) = [] := by
      rw [List.filter_eq_nil_iff]
      intro a ha
      have := htail a (by simpa using ha)
      simp [this]
    rw [List.filter_cons]
    split
    · rw [hrest]
      exact Nat.le_refl 1
    · rw [hrest]
      exact Nat.zero_le 1

/-- One step keeps the invariant, produces no notification while quiet, and
leaves the system quiet only with the flag clear and no join pending. -/
theorem step_spec (w w1 : Watcher) (a : Action) (evs : List Event) (q : Bool)
    (hinv : WatcherInv w)
    (hq : q = true → w.g_running = false ∧ w.joining = false)
    (hstep : step w a = some (w1, evs)) :
    WatcherInv w1 ∧ noNotifyAfterStop q evs = true ∧
      (quietAfter q evs = true → w1.g_running = false ∧ w1.joining = false) := by
  obtain ⟨htail, hidle, hjoin⟩ := hinv
  cases a with
  | start =>
    unfold step at hstep
    by_cases hj : w.joining = true
    · simp [hj] at hstep
    · have hjf : w.joining = false := by simpa using hj
      simp only [hjf, Bool.false_eq_true, if_false, Option.some.injEq, Prod.mk.injEq] at hstep
      obtain ⟨hw1, hevs⟩ := hstep
      subst hw1; subst hevs
      refine ⟨?_, by simp [noNotifyAfterStop], by simp [quietAfter]⟩
      unfold nativeStartObserving
      by_cases hr : w.g_running = true
      · simp only [hr, if_true]
        exact ⟨htail, hidle, hjoin⟩
      · have hrf : w.g_running = false := by simpa using hr
        simp only [hrf, Bool.false_eq_true, if_false]
        refine ⟨?_, ?_, ?_⟩
        · intro pc hpc
          exact hidle hrf hjf pc (by simpa using hpc)
        · intro h
          simp at h
        · intro h
          simp [hjf] at h
  | stop =>
    unfold step at hstep
    by_cases hj : w.joining = true
    · simp [hj] at hstep
    · have hjf : w.joining = false := by simpa using hj
      by_cases hr : w.g_running = true
      · have hstop : nativeStopObserving w = { w with g_running := false, joining := true } := by
          simp [nativeStopObserving, hr]
        rw [hstop] at hstep
        simp only [hjf, Bool.false_eq_true, if_false, if_true, Option.some.injEq,
          Prod.mk.injEq] at hstep
        obtain ⟨hw1, hevs⟩ := hstep
        subst hw1; subst hevs
        refine ⟨⟨htail, ?_, ?_⟩, by simp [noNotifyAfterStop], ?_⟩
        · intro _ h
          simp at h
        · intro _
          rfl
        · intro hqa
          have hqt : q = true := by simpa [quietAfter] using hqa
          have := (hq hqt).1
          rw [hr] at this
          exact absurd this (by decide)
      · have hrf : w.g_running = false := by simpa using hr
        have hstop : nativeStopObserving w = w := by
          simp [nativeStopObserving, hrf]
        rw [hstop] at hstep
        simp only [hjf, Bool.false_eq_true, if_false, Option.some.injEq,
          Prod.mk.injEq] at hstep
        obtain ⟨hw1, hevs⟩ := hstep
        subst hw1; subst hevs
        exact ⟨⟨htail, hidle, hjoin⟩, by simp [noNotifyAfterStop], fun _ => ⟨hrf, hjf⟩⟩
  | joinReturn =>
    unfold step at hstep
    cases hpj : pthread_join w with
    | none => simp [hpj] at hstep
    | some w2 =>
      simp only [hpj, Option.some.injEq, Prod.mk.injEq] at hstep
      obtain ⟨hw1, hevs⟩ := hstep
      subst hw1; subst hevs
      unfold pthread_join at hpj
      by_cases hj : w.joining = true
      · simp only [hj, if_true] at hpj
        cases hthreads : w.threads with
        | nil => simp [hthreads] at hpj
        | cons pc rest =>
          rw [hthreads] at hpj
          cases pc with
          | exited =>
            simp only [Option.some.injEq] at hpj
            subst hpj
            have hrun : w.g_running = false := hjoin hj
            have hall : ∀ pc ∈ w.threads, pc = WorkerPc.exited := by
              intro pc hpc
              rw [hthreads] at hpc htail
              rcases List.mem_cons.mp hpc with h | h
              · exact h
              · exact htail pc (by simpa using h)
            refine ⟨⟨?_, ?_, fun h => by simp at h⟩,
              by simp [noNotifyAfterStop], fun _ => ⟨hrun, rfl⟩⟩
            · intro x hx
              exact hall x (by rw [hthreads]; exact List.mem_cons_of_mem _ (by simpa using hx))
            · intro _ _ x hx
              exact hall x (by rw [hthreads]; simpa using hx)
          | setup => simp at hpj
          | loopHead => simp at hpj
          | draining queue => simp at hpj
      · simp [hj] at hpj
  | worker i inp =>
    unfold step at hstep
    cases hget : w.threads[i]? with
    | none => simp [hget] at hstep
    | some pc =>
      cases hmon : monitor_thread_step w.g_running pc inp with
      | none => simp [hget, hmon] at hstep
      | some res =>
        obtain ⟨pc1, calls⟩ := res
        simp only [hget, hmon, Option.some.injEq, Prod.mk.injEq] at hstep
        obtain ⟨hw1, hevs⟩ := hstep
        subst hw1; subst hevs
        have hlive : pc ≠ WorkerPc.exited := by
          intro h
          rw [h, monitor_thread_step_exited] at hmon
          exact absurd hmon (by simp)
        have hnotall : ¬ (w.g_running = false ∧ w.joining = false) := by
          rintro ⟨h1, h2⟩
          exact hlive (hidle h1 h2 pc (List.getElem?_mem hget))
        have hqf : q = false := by
          cases q
          · rfl
          · exact absurd (hq rfl) hnotall
        subst hqf
        have hnot := noNotifyAfterStop_notifications calls
        refine ⟨?_, hnot.1, fun h => by rw [hnot.2] at h; exact absurd h (by decide)⟩
        cases hthreads : w.threads with
        | nil => rw [hthreads] at hget; simp at hget
        | cons pc0 rest =>
          rw [hthreads] at hget htail
          cases i with
          | zero =>
            refine ⟨?_, ?_, hjoin⟩
            · intro x hx
              exact htail x (by simpa using hx)
            · intro h1 h2
              exact absurd ⟨h1, h2⟩ hnotall
          | succ j =>
            have hmem : pc ∈ rest := List.getElem?_mem (by simpa using hget)
            exact absurd (htail pc (by simpa using hmem)) hlive

/-- A whole schedule keeps the invariant, never notifies while quiet, and
ends quiet only with the flag clear and no join pending. -/
theorem run_spec (acts : List Action) :
    ∀ (w w1 : Watcher) (evs : List Event) (q : Bool), WatcherInv w →
      (q = true → w.g_running = false ∧ w.joining = false) →
      run w acts = some (w1, evs) →
      WatcherInv w1 ∧ noNotifyAfterStop q evs = true ∧
        (quietAfter q evs = true → w1.g_running = false ∧ w1.joining = false) := by
  induction acts with
  | nil =>
    intro w w1 evs q hinv hq hrun
    simp only [run, Option.some.injEq, Prod.mk.injEq] at hrun
    obtain ⟨hw, hevs⟩ := hrun
    subst hw; subst hevs
    exact ⟨hinv, rfl, hq⟩
  | cons a rest ih =>
    intro w w1 evs q hinv hq hrun
    unfold run at hrun
    cases hstep : step w a with
    | none => simp [hstep] at hrun
    | some res =>
      obtain ⟨w2, evs1⟩ := res
      cases hrest : run w2 rest with
      | none => simp [hstep, hrest] at hrun
      | some res2 =>
        obtain ⟨w3, evs2⟩ := res2
        simp only [hstep, hrest, Option.some.injEq, Prod.mk.injEq] at hrun
        obtain ⟨hw, hevs⟩ := hrun
        subst hw; subst hevs
        obtain ⟨hinv2, hno1, hq2⟩ := step_spec w w2 a evs1 q hinv hq hstep
        obtain ⟨hinv3, hno2, hq3⟩ := ih w2 w3 evs2 (quietAfter q evs1) hinv2 hq2 hrest
        refine ⟨hinv3, ?_, ?_⟩
        · rw [noNotifyAfterStop_append, hno1, hno2]
          rfl
        · rw [quietAfter_append]
          exact hq3

/-- C6: `nativeStartObserving` called with the flag set returns the state
unchanged (same flag, same threads: no worker is created), and
`nativeStopObserving` called with the flag clear returns the state
unchanged and returns at once, without a join; in every state reached from
the initial one by a schedule of start calls, stop calls, join returns and
worker steps, at most one worker thread has not yet returned. -/
theorem start_stop_idempotent (t : Watcher) (acts : List Action) (w : Watcher)
    (evs : List Event) (hrun : run Watcher.init acts = some (w, evs)) :
    (t.g_running = true →
      nativeStartObserving t = t ∧ (nativeStartObserving t).threads = t.threads) ∧
    (t.g_running = false →
      nativeStopObserving t = t ∧
      (t.joining = false → step t Action.stop = some (t, [Event.stopReturned]))) ∧
    liveWorkers w ≤ 1 := by
  refine ⟨?_, ?_, ?_⟩
  · intro hr
    have h : nativeStartObserving t = t := by simp [nativeStartObserving, hr]
    exact ⟨h, by rw [h]⟩
  · intro hr
    have h : nativeStopObserving t = t := by simp [nativeStopObserving, hr]
    refine ⟨h, ?_⟩
    intro hj
    simp [step, h, hj]
  · exact liveWorkers_le_one w
      (run_spec acts Watcher.init w evs false watcherInv_init
        (fun h => absurd h (by decide)) hrun).1

/-- Instance of `start_stop_idempotent`: two start calls in a row leave one worker. -/
theorem start_stop_idempotent_witness :
    run Watcher.init [Action.start, Action.start, Action.worker 0 (BusInput.ok [])] =
      some ({ g_running := true, threads := [WorkerPc.loopHead], joining := false },
        [Event.startCalled, Event.startCalled]) ∧
    liveWorkers { g_running := true, threads := [WorkerPc.loopHead], joining := false } ≤ 1 :=
  ⟨by decide,
   (start_stop_idempotent Watcher.init
      [Action.start, Action.start, Action.worker 0 (BusInput.ok [])]
      { g_running := true, threads := [WorkerPc.loopHead], joining := false }
      [Event.startCalled, Event.startCalled] (by decide)).2.2⟩

/-- C7: `nativeStopObserving` called with the flag set clears the flag and
waits in `pthread_join`, which returns only when the thread `g_thread`
names has returned. In every trace of a schedule run from the initial
state no `notify_java` call follows the return of a stop call unless a
start call lies in between, and whenever the last of the start and
stop-return events is a stop-return, no worker thread is left running. -/
theorem no_notification_after_stop (t : Watcher) (acts : List Action) (w : Watcher)
    (evs : List Event) (hrun : run Watcher.init acts = some (w, evs)) :
    (t.g_running = true → t.joining = false →
      (nativeStopObserving t).g_running = false ∧
      step t Action.stop = some (nativeStopObserving t, []) ∧
      step (nativeStopObserving t) Action.start = none ∧
      ∀ t2 evs2, step (nativeStopObserving t) Action.joinReturn = some (t2, evs2) →
        t.threads.head? = some WorkerPc.exited ∧ evs2 = [Event.stopReturned]) ∧
    noNotifyAfterStop false evs = true ∧
    (quietAfter false evs = true → liveWorkers w = 0 ∧ w.g_running = false) := by
  have hspec := run_spec acts Watcher.init w evs false watcherInv_init
    (fun h => absurd h (by decide)) hrun
  obtain ⟨hinv, hno, hquiet⟩ := hspec
  refine ⟨?_, hno, ?_⟩
  · intro hr hj
    have hstop : nativeStopObserving t = { t with g_running := false, joining := true } := by
      simp [nativeStopObserving, hr]
    refine ⟨by rw [hstop], ?_, ?_, ?_⟩
    · simp [step, hj, hstop]
    · simp [step, hstop]
    · intro t2 evs2 hstep
      rw [hstop] at hstep
      unfold step pthread_join at hstep
      cases hthreads : t.threads with
      | nil => simp [hthreads] at hstep
      | cons pc rest =>
        cases pc with
        | exited =>
          simp only [hthreads, if_true, Option.some.injEq, Prod.mk.injEq] at hstep
          exact ⟨rfl, hstep.2.symm⟩
        | setup => simp [hthreads] at hstep
        | loopHead => simp [hthreads] at hstep
        | draining queue => simp [hthreads] at hstep
  · intro hq
    obtain ⟨hrun2, hjoin2⟩ := hquiet hq
    exact ⟨liveWorkers_eq_zero w (hinv.2.1 hrun2 hjoin2), hrun2⟩

/-- Instance of `no_notification_after_stop` at `sampleSchedule`. -/
theorem no_notification_after_stop_witness :
    run Watcher.init sampleSchedule =
      some ({ g_running := false, threads := [WorkerPc.exited], joining := false },
        [Event.startCalled, Event.notify_java true, Event.stopReturned]) ∧
    noNotifyAfterStop false
      [Event.startCalled, Event.notify_java true, Event.stopReturned] = true ∧
    liveWorkers { g_running := false, threads := [WorkerPc.exited], joining := false } = 0 :=
  ⟨by decide,
   (no_notification_after_stop Watcher.init sampleSchedule
      { g_running := false, threads := [WorkerPc.exited], joining := false }
      [Event.startCalled, Event.notify_java true, Event.stopReturned] (by decide)).2.1,
   ((no_notification_after_stop Watcher.init sampleSchedule
      { g_running := false, threads := [WorkerPc.exited], joining := false }
      [Event.startCalled, Event.notify_java true, Event.stopReturned] (by decide)).2.2
        (by decide)).1⟩

/-! ## Notification registry: the table -/

theorem lookup_nil (k1 : Int) : g_hash_table_lookup [] k1 = none := rfl

theorem lookup_cons (k0 : Int) (v : NotifyNotification)
    (rest : List (Int × NotifyNotification)) (k1 : Int) :
    g_hash_table_lookup ((k0, v) :: rest) k1 =
      if k0 = k1 then some v else g_hash_table_lookup rest k1 := rfl

theorem remove_cons (k0 : Int) (v : NotifyNotification)
    (rest : List (Int × NotifyNotification)) (k : Int) :
    g_hash_table_remove ((k0, v) :: rest) k =
      if k0 = k then g_hash_table_remove rest k
      else (k0, v) :: g_hash_table_remove rest k := by
  unfold g_hash_table_remove
  rw [List.filter_cons]
  by_cases h : k0 = k
  · simp [h]
  · simp [h]

theorem update_cons (k0 : Int) (v : NotifyNotification)
    (rest : List (Int × NotifyNotification)) (k : Int)
    (f : NotifyNotification → NotifyNotification) :
    updateNotification ((k0, v) :: rest) k f =
      (k0, if k0 = k then f v else v) :: updateNotification rest k f := by
  unfold updateNotification
  rw [List.map_cons]
  by_cases h : k0 = k
  · simp [h]
  · simp [h]

theorem lookup_remove (m : List (Int × NotifyNotification)) (k k1 : Int) :
    g_hash_table_lookup (g_hash_table_remove m k) k1 =
      if k1 = k then none else g_hash_table_lookup m k1 := by
  induction m with
  | nil =>
    simp [g_hash_table_remove, g_hash_table_lookup]
  | cons e rest ih =>
    obtain ⟨k0, v⟩ := e
    rw [remove_cons, lookup_cons]
    by_cases h0 : k0 = k
    · rw [if_pos h0, ih]
      by_cases h1 : k1 = k
      · rw [if_pos h1, if_pos h1]
      · rw [if_neg h1, if_neg h1, if_neg (fun h => h1 (h.symm.trans h0))]
    · rw [if_neg h0, lookup_cons, ih]
      by_cases h1 : k0 = k1
      · rw [if_pos h1, if_pos h1, if_neg (fun h => h0 (h1.trans h))]
      · rw [if_neg h1, if_neg h1]

theorem lookup_remove_self (m : List (Int × NotifyNotification)) (k : Int) :
    g_hash_table_lookup (g_hash_table_remove m k) k = none := by
  rw [lookup_remove, if_pos rfl]

theorem lookup_insert (m : List (Int × NotifyNotification)) (k k1 : Int)
    (v : NotifyNotification) :
    g_hash_table_lookup (g_hash_table_insert m k v) k1 =
      if k = k1 then some v else g_hash_table_lookup m k1 := by
  unfold g_hash_table_insert
  rw [lookup_cons, lookup_remove]
  by_cases h : k = k1
  · rw [if_pos h, if_pos h]
  · rw [if_neg h, if_neg h, if_neg (fun e => h e.symm)]

theorem lookup_update_eq_none (m : List (Int × NotifyNotification)) (k k1 : Int)
    (f : NotifyNotification → NotifyNotification) :
    g_hash_table_lookup (updateNotification m k f) k1 = none ↔
      g_hash_table_lookup m k1 = none := by
  induction m with
  | nil => simp [updateNotification, g_hash_table_lookup]
  | cons e rest ih =>
    obtain ⟨k0, v⟩ := e
    rw [update_cons, lookup_cons, lookup_cons]
    by_cases h1 : k0 = k1
    · rw [if_pos h1, if_pos h1]
      simp
    · rw [if_neg h1, if_neg h1]
      exact ih

/-! ## Notification registry: calls on an absent id -/

theorem addButton_absent (r : Registry) (p : Int) (i l : Option String)
    (h : g_hash_table_lookup r.notifications_map p = none) :
    addButtonToNotification r p i l = r := by
  simp [addButtonToNotification, h]

theorem setImage_absent (r : Registry) (p : Int) (path : Option String) (loaded : Bool)
    (h : g_hash_table_lookup r.notifications_map p = none) :
    setNotificationImage r p path loaded = r := by
  simp [setNotificationImage, h]

theorem send_absent (r : Registry) (p : Int) (ok : Bool)
    (h : g_hash_table_lookup r.notifications_map p = none) :
    sendNotification r p ok = (r, -1) := by
  simp [sendNotification, h]

theorem close_absent (r : Registry) (p : Int) (ok : Bool)
    (h : g_hash_table_lookup r.notifications_map p = none) :
    closeNotification r p ok = (r, -1) := by
  simp [closeNotification, h]

theorem setClicked_absent (r : Registry) (p : Int) (cb : Nat) (m : Option Nat)
    (h : g_hash_table_lookup r.notifications_map p = none) :
    setNotificationClickedCallback r p (some cb) m =
      { r with g_clickedCallbackObj := some cb, g_clickedMethod := m } := by
  unfold setNotificationClickedCallback
  cases hobj : r.g_clickedCallbackObj <;> simp [h]

theorem setClosed_absent (r : Registry) (p : Int) (cb : Nat) (m : Option Nat)
    (h : g_hash_table_lookup r.notifications_map p = none) :
    setNotificationClosedCallback r p (some cb) m =
      { r with g_closedCallbackObj := some cb, g_closedMethod := m } := by
  unfold setNotificationClosedCallback
  cases hobj : r.g_closedCallbackObj <;> simp [h]

theorem setClicked_none (r : Registry) (p : Int) (m : Option Nat) :
    setNotificationClickedCallback r p none m =
      if r.g_clickedCallbackObj.isSome then
        { r with g_clickedCallbackObj := none, g_clickedMethod := none }
      else r := by
  unfold setNotificationClickedCallback
  cases hobj : r.g_clickedCallbackObj <;> simp

theorem setClosed_none (r : Registry) (p : Int) (m : Option Nat) :
    setNotificationClosedCallback r p none m =
      if r.g_closedCallbackObj.isSome then
        { r with g_closedCallbackObj := none, g_closedMethod := none }
      else r := by
  unfold setNotificationClosedCallback
  cases hobj : r.g_closedCallbackObj <;> simp

theorem addButton_lookup (r : Registry) (p k : Int) (i l : Option String) :
    g_hash_table_lookup (addButtonToNotification r p i l).notifications_map k = none ↔
      g_hash_table_lookup r.notifications_map k = none := by
  unfold addButtonToNotification
  cases h : g_hash_table_lookup r.notifications_map p with
  | none => simp
  | some n => simp [lookup_update_eq_none]

theorem setImage_lookup (r : Registry) (p k : Int) (path : Option String) (loaded : Bool) :
    g_hash_table_lookup (setNotificationImage r p path loaded).notifications_map k = none ↔
      g_hash_table_lookup r.notifications_map k = none := by
  unfold setNotificationImage
  cases h : g_hash_table_lookup r.notifications_map p with
  | none => simp
  | some n =>
    cases path with
    | none => simp
    | some image_path =>
      cases loaded <;> simp [lookup_update_eq_none]

theorem send_lookup (r : Registry) (p k : Int) (ok : Bool) :
    g_hash_table_lookup (sendNotification r p ok).1.notifications_map k = none ↔
      g_hash_table_lookup r.notifications_map k = none := by
  unfold sendNotification
  cases h : g_hash_table_lookup r.notifications_map p with
  | none => simp
  | some n => cases ok <;> simp [lookup_update_eq_none]

theorem setClicked_lookup (r : Registry) (p k : Int) (cb m : Option Nat) :
    g_hash_table_lookup (setNotificationClickedCallback r p cb m).notifications_map k = none ↔
      g_hash_table_lookup r.notifications_map k = none := by
  unfold setNotificationClickedCallback
  cases hobj : r.g_clickedCallbackObj <;> cases cb <;>
    cases h : g_hash_table_lookup r.notifications_map p <;>
    simp [h, lookup_update_eq_none]

theorem setClosed_lookup (r : Registry) (p k : Int) (cb m : Option Nat) :
    g_hash_table_lookup (setNotificationClosedCallback r p cb m).notifications_map k = none ↔
      g_hash_table_lookup r.notifications_map k = none := by
  unfold setNotificationClosedCallback
  cases hobj : r.g_closedCallbackObj <;> cases cb <;>
    cases h : g_hash_table_lookup r.notifications_map p <;>
    simp [h, lookup_update_eq_none]

theorem setButton_map (r : Registry) (cb m : Option Nat) :
    (setButtonCallback r cb m).notifications_map = r.notifications_map ∧
    (setButtonCallback r cb m).notification_id = r.notification_id ∧
    (setButtonCallback r cb m).initted = r.initted := by
  unfold setButtonCallback
  cases hobj : r.g_buttonCallbackObj <;> cases cb <;> simp

theorem close_lookup (r : Registry) (p k : Int) (ok : Bool)
    (h : g_hash_table_lookup r.notifications_map k = none) :
    g_hash_table_lookup (closeNotification r p ok).1.notifications_map k = none := by
  unfold closeNotification
  cases hp : g_hash_table_lookup r.notifications_map p with
  | none => simpa using h
  | some n =>
    cases ok
    · simpa using h
    · simp [lookup_remove, h]

theorem cleanup_lookup (r : Registry) (p k : Int)
    (h : g_hash_table_lookup r.notifications_map k = none) :
    g_hash_table_lookup (cleanupNotification r p).notifications_map k = none := by
  simp [cleanupNotification, lookup_remove, h]

/-! ## Notification registry: the id counter -/

theorem addButton_counter (r : Registry) (p : Int) (i l : Option String) :
    (addButtonToNotification r p i l).notification_id = r.notification_id := by
  unfold addButtonToNotification
  cases h : g_hash_table_lookup r.notifications_map p <;> simp

theorem setImage_counter (r : Registry) (p : Int) (path : Option String) (loaded : Bool) :
    (setNotificationImage r p path loaded).notification_id = r.notification_id := by
  unfold setNotificationImage
  cases h : g_hash_table_lookup r.notifications_map p <;> cases path <;> cases loaded <;> simp

theorem send_counter (r : Registry) (p : Int) (ok : Bool) :
    (sendNotification r p ok).1.notification_id = r.notification_id := by
  unfold sendNotification
  cases h : g_hash_table_lookup r.notifications_map p <;> cases ok <;> simp

theorem close_counter (r : Registry) (p : Int) (ok : Bool) :
    (closeNotification r p ok).1.notification_id = r.notification_id := by
  unfold closeNotification
  cases h : g_hash_table_lookup r.notifications_map p <;> cases ok <;> simp

theorem setClicked_counter (r : Registry) (p : Int) (cb m : Option Nat) :
    (setNotificationClickedCallback r p cb m).notification_id = r.notification_id := by
  unfold setNotificationClickedCallback
  cases hobj : r.g_clickedCallbackObj <;> cases cb <;>
    cases h : g_hash_table_lookup r.notifications_map p <;> simp [h]

theorem setClosed_counter (r : Registry) (p : Int) (cb m : Option Nat) :
    (setNotificationClosedCallback r p cb m).notification_id = r.notification_id := by
  unfold setNotificationClosedCallback
  cases hobj : r.g_closedCallbackObj <;> cases cb <;>
    cases h : g_hash_table_lookup r.notifications_map p <;> simp [h]

theorem init_fields (r : Registry) (initOk : Bool) :
    (init r initOk).1.notification_id = r.notification_id ∧
    (init r initOk).1.notifications_map = r.notifications_map := by
  unfold init
  cases r.initted <;> simp

/-- A call that issues no id keeps the counter and makes no absent key
present. -/
theorem applyCall_none (r : Registry) (c : RegistryCall) (h : (applyCall r c).2 = none) :
    (applyCall r c).1.notification_id = r.notification_id ∧
    ∀ k, g_hash_table_lookup r.notifications_map k = none →
      g_hash_table_lookup (applyCall r c).1.notifications_map k = none := by
  cases c with
  | init initOk =>
    exact ⟨(init_fields r initOk).1, fun k hk => by
      show g_hash_table_lookup (init r initOk).1.notifications_map k = none
      rw [(init_fields r initOk).2]; exact hk⟩
  | create jsummary jbody jicon_path newOk =>
    cases hi : r.initted with
    | false =>
      have hsame : (applyCall r (RegistryCall.create jsummary jbody jicon_path newOk)).1 = r := by
        simp [applyCall, hi]
      rw [hsame]
      exact ⟨rfl, fun k hk => hk⟩
    | true =>
      cases newOk with
      | false =>
        have hsame : (applyCall r (RegistryCall.create jsummary jbody jicon_path false)).1 = r := by
          simp [applyCall, hi]
        rw [hsame]
        exact ⟨rfl, fun k hk => hk⟩
      | true => simp [applyCall, hi] at h
  | addButton p i l =>
    exact ⟨addButton_counter r p i l, fun k hk => (addButton_lookup r p k i l).mpr hk⟩
  | setClicked p cb m =>
    exact ⟨setClicked_counter r p cb m, fun k hk => (setClicked_lookup r p k cb m).mpr hk⟩
  | setClosed p cb m =>
    exact ⟨setClosed_counter r p cb m, fun k hk => (setClosed_lookup r p k cb m).mpr hk⟩
  | setButton cb m =>
    exact ⟨(setButton_map r cb m).2.1, fun k hk => by
      show g_hash_table_lookup (setButtonCallback r cb m).notifications_map k = none
      rw [(setButton_map r cb m).1]; exact hk⟩
  | setImage p path loaded =>
    exact ⟨setImage_counter r p path loaded,
      fun k hk => (setImage_lookup r p k path loaded).mpr hk⟩
  | send p ok =>
    exact ⟨send_counter r p ok, fun k hk => (send_lookup r p k ok).mpr hk⟩
  | close p ok =>
    exact ⟨close_counter r p ok, fun k hk => close_lookup r p k ok hk⟩
  | cleanupOne p =>
    exact ⟨rfl, fun k hk => cleanup_lookup r p k hk⟩

/-- A call that issues an id is a `createNotification` past its failure
returns: the id is the incremented counter, it becomes the counter and a
key of the table, and the other keys are as before. -/
theorem applyCall_some (r : Registry) (c : RegistryCall) (id : Int)
    (h : (applyCall r c).2 = some id) :
    id = wrap_int32 (r.notification_id + 1) ∧
    (applyCall r c).1.notification_id = id ∧
    g_hash_table_lookup (applyCall r c).1.notifications_map id ≠ none ∧
    ∀ k, k ≠ id → g_hash_table_lookup (applyCall r c).1.notifications_map k =
      g_hash_table_lookup r.notifications_map k := by
  cases c with
  | create jsummary jbody jicon_path newOk =>
    cases hi : r.initted with
    | false => simp [applyCall, hi] at h
    | true =>
      cases newOk with
      | false => simp [applyCall, hi] at h
      | true =>
        have hcreate : createNotification r jsummary jbody jicon_path true =
            ({ r with notification_id := wrap_int32 (r.notification_id + 1),
                      notifications_map := g_hash_table_insert r.notifications_map
                        (wrap_int32 (r.notification_id + 1))
                        { summary := jsummary.getD "", body := jbody.getD "",
                          icon := jicon_path, actions := [], image := none,
                          closed_handlers := [], shown := false } },
             wrap_int32 (r.notification_id + 1)) := by
          simp [createNotification, hi]
        have happly : applyCall r (RegistryCall.create jsummary jbody jicon_path true) =
            ((createNotification r jsummary jbody jicon_path true).1,
             some (createNotification r jsummary jbody jicon_path true).2) := by
          simp [applyCall, hi]
        rw [happly, hcreate] at h
        rw [happly, hcreate]
        simp only [Option.some.injEq] at h
        subst h
        refine ⟨rfl, rfl, ?_, ?_⟩
        · simp [lookup_insert]
        · intro k hk
          simp only [lookup_insert]
          rw [if_neg (fun e => hk e.symm)]
  | init initOk => simp [applyCall] at h
  | addButton p i l => simp [applyCall] at h
  | setClicked p cb m => simp [applyCall] at h
  | setClosed p cb m => simp [applyCall] at h
  | setButton cb m => simp [applyCall] at h
  | setImage p path loaded => simp [applyCall] at h
  | send p ok => simp [applyCall] at h
  | close p ok => simp [applyCall] at h
  | cleanupOne p => simp [applyCall] at h

/-! ## Notification registry: sequences of calls -/

theorem wrap_int32_of_small (x : Int) (h0 : 0 ≤ x) (h1 : x + 1 < 2 ^ 31) :
    wrap_int32 (x + 1) = x + 1 := by
  unfold wrap_int32
  omega

theorem runCalls_cons (r : Registry) (c : RegistryCall) (rest : List RegistryCall) :
    runCalls r (c :: rest) =
      match (applyCall r c).2 with
      | none => runCalls (applyCall r c).1 rest
      | some id =>
        ((runCalls (applyCall r c).1 rest).1, id :: (runCalls (applyCall r c).1 rest).2) := rfl

/-- A key that is absent stays absent over a sequence of calls that does
not issue it. -/
theorem runCalls_absent (calls : List RegistryCall) :
    ∀ (r : Registry) (k : Int), g_hash_table_lookup r.notifications_map k = none →
      k ∉ (runCalls r calls).2 →
      g_hash_table_lookup (runCalls r calls).1.notifications_map k = none := by
  induction calls with
  | nil =>
    intro r k hk _
    exact hk
  | cons c rest ih =>
    intro r k hk hnot
    rw [runCalls_cons] at hnot ⊢
    cases hc : (applyCall r c).2 with
    | none =>
      simp only [hc] at hnot ⊢
      exact ih _ k ((applyCall_none r c hc).2 k hk) hnot
    | some id =>
      simp only [hc] at hnot ⊢
      have hne : k ≠ id := fun e => hnot (by rw [e]; exact List.mem_cons_self _ _)
      have hrest : k ∉ (runCalls (applyCall r c).1 rest).2 :=
        fun hmem => hnot (List.mem_cons_of_mem _ hmem)
      have hk2 : g_hash_table_lookup (applyCall r c).1.notifications_map k = none := by
        rw [(applyCall_some r c id hc).2.2.2 k hne]
        exact hk
      exact ih _ k hk2 hrest

/-- While the counter stays below 2^31 the ids issued by a sequence of
calls are the successors of the starting counter in order, the counter
ends at the last of them, and every key of the table lies between 1 and
the counter. -/
theorem runCalls_ids (calls : List RegistryCall) :
    ∀ (r : Registry), 0 ≤ r.notification_id →
      (∀ k, g_hash_table_lookup r.notifications_map k ≠ none →
        1 ≤ k ∧ k ≤ r.notification_id) →
      r.notification_id + ((runCalls r calls).2.length : Int) < 2 ^ 31 →
      (runCalls r calls).1.notification_id =
        r.notification_id + ((runCalls r calls).2.length : Int) ∧
      (∀ j, j < (runCalls r calls).2.length →
        (runCalls r calls).2[j]? = some (r.notification_id + 1 + (j : Int))) ∧
      (∀ k, g_hash_table_lookup (runCalls r calls).1.notifications_map k ≠ none →
        1 ≤ k ∧ k ≤ (runCalls r calls).1.notification_id) := by
  induction calls with
  | nil =>
    intro r _ hkeys _
    refine ⟨by simp [runCalls], ?_, hkeys⟩
    intro j hj
    simp [runCalls] at hj
  | cons c rest ih =>
    intro r h0 hkeys hbound
    rw [runCalls_cons] at hbound ⊢
    cases hc : (applyCall r c).2 with
    | none =>
      simp only [hc] at hbound ⊢
      obtain ⟨hcount, hkeep⟩ := applyCall_none r c hc
      have hkeys2 : ∀ k, g_hash_table_lookup (applyCall r c).1.notifications_map k ≠ none →
          1 ≤ k ∧ k ≤ (applyCall r c).1.notification_id := by
        intro k hk
        rw [hcount]
        apply hkeys k
        intro hnone
        exact hk (hkeep k hnone)
      have := ih (applyCall r c).1 (by rw [hcount]; exact h0) hkeys2
        (by rw [hcount]; exact hbound)
      rw [hcount] at this
      exact this
    | some id =>
      simp only [hc, List.length_cons] at hbound ⊢
      obtain ⟨hid, hcount, _, hother⟩ := applyCall_some r c id hc
      have hlen : (0 : Int) ≤ ((runCalls (applyCall r c).1 rest).2.length : Int) :=
        Int.ofNat_nonneg _
      have hid2 : id = r.notification_id + 1 := by
        rw [hid]
        apply wrap_int32_of_small _ h0
        push_cast at hbound
        omega
      have hkeys2 : ∀ k, g_hash_table_lookup (applyCall r c).1.notifications_map k ≠ none →
          1 ≤ k ∧ k ≤ (applyCall r c).1.notification_id := by
        intro k hk
        rw [hcount, hid2]
        by_cases hkid : k = id
        · rw [hkid, hid2]
          omega
        · rw [hother k hkid] at hk
          have := hkeys k hk
          omega
      have hrec := ih (applyCall r c).1 (by rw [hcount, hid2]; omega) hkeys2
        (by rw [hcount, hid2]; push_cast at hbound; omega)
      obtain ⟨hfinal, hids, hkeysf⟩ := hrec
      refine ⟨?_, ?_, hkeysf⟩
      · rw [hfinal, hcount, hid2]
        push_cast
        omega
      · intro j hj
        cases j with
        | zero => simp [hid2]
        | succ i =>
          have hi : i < (runCalls (applyCall r c).1 rest).2.length := by omega
          rw [List.getElem?_cons_succ, hids i hi, hcount, hid2]
          congr 1
          push_cast
          omega

theorem runCalls_replicate_create (n : Nat) :
    ∀ r : Registry, r.initted = true →
      (runCalls r (List.replicate n (RegistryCall.create none none none true))).2.length = n ∧
      (runCalls r (List.replicate n (RegistryCall.create none none none true))).1.initted
        = true := by
  induction n with
  | zero =>
    intro r hi
    exact ⟨rfl, hi⟩
  | succ n ih =>
    intro r hi
    rw [List.replicate_succ, runCalls_cons]
    have happly : applyCall r (RegistryCall.create none none none true) =
        ((createNotification r none none none true).1,
         some (createNotification r none none none true).2) := by
      simp [applyCall, hi]
    have hinit : (createNotification r none none none true).1.initted = true := by
      simp [createNotification, hi]
    rw [happly]
    have := ih (createNotification r none none none true).1 hinit
    exact ⟨by simp [this.1], this.2⟩

/-- C8, as stated, fails once the 32-bit counter is exhausted: after `init`
and 2147483647 successful creates the last id issued is 2147483647, and
the next successful create returns -2147483648, which is smaller. -/
theorem created_id_wraps_around :
    (runCalls Registry.fresh manyCreates).2.getLast? = some 2147483647 ∧
    (createNotification (runCalls Registry.fresh manyCreates).1 none none none true).2
      = -2147483648 := by
  have hfirst : runCalls Registry.fresh manyCreates =
      runCalls { Registry.fresh with initted := true }
        (List.replicate 2147483647 (RegistryCall.create none none none true)) := by
    unfold manyCreates
    rw [runCalls_cons]
    rfl
  have hrep := runCalls_replicate_create 2147483647 { Registry.fresh with initted := true } rfl
  rw [← hfirst] at hrep
  obtain ⟨hlen, hinit⟩ := hrep
  have hspec := runCalls_ids manyCreates Registry.fresh (by decide)
    (fun k hk => absurd rfl hk) (by rw [hlen]; decide)
  obtain ⟨hfinal, hids, _⟩ := hspec
  generalize runCalls Registry.fresh manyCreates = res at hlen hinit hfinal hids ⊢
  constructor
  · rw [List.getLast?_eq_getElem?, hlen]
    have := hids 2147483646 (by rw [hlen]; decide)
    rw [this]
    decide
  · have hcount : res.1.notification_id = 2147483647 := by
      rw [hfinal, hlen]
      decide
    have hw : wrap_int32 (2147483647 + 1) = -2147483648 := by decide
    simp only [createNotification, hinit, hcount, hw]
    rfl

/-- C8, amended: over every sequence of calls from the state left by
`JNI_OnLoad` that has issued fewer than 2^31 - 1 ids, the ids issued are
1, 2, 3, ... in order and the counter equals their number; a create that
fails (library not initialised, or no object made) returns -1 and leaves
the registry, counter included, unchanged; a create that succeeds returns
the next number, greater than every id issued before, which is not a key
of the table before the call and is one after it. -/
theorem created_ids_increase (calls : List RegistryCall)
    (jsummary jbody jicon_path : Option String) (newOk : Bool)
    (hbound : (runCalls Registry.fresh calls).2.length < 2 ^ 31 - 1) :
    (∀ j, j < (runCalls Registry.fresh calls).2.length →
      (runCalls Registry.fresh calls).2[j]? = some ((j : Int) + 1)) ∧
    (runCalls Registry.fresh calls).1.notification_id =
      ((runCalls Registry.fresh calls).2.length : Int) ∧
    ((runCalls Registry.fresh calls).1.initted = false ∨ newOk = false →
      createNotification (runCalls Registry.fresh calls).1 jsummary jbody jicon_path newOk
        = ((runCalls Registry.fresh calls).1, -1)) ∧
    ((runCalls Registry.fresh calls).1.initted = true → newOk = true →
      (createNotification (runCalls Registry.fresh calls).1 jsummary jbody jicon_path
          newOk).2 = ((runCalls Registry.fresh calls).2.length : Int) + 1 ∧
      (∀ x ∈ (runCalls Registry.fresh calls).2,
        x < (createNotification (runCalls Registry.fresh calls).1 jsummary jbody jicon_path
          newOk).2) ∧
      g_hash_table_lookup (runCalls Registry.fresh calls).1.notifications_map
        (createNotification (runCalls Registry.fresh calls).1 jsummary jbody jicon_path
          newOk).2 = none ∧
      (createNotification (runCalls Registry.fresh calls).1 jsummary jbody jicon_path
          newOk).1.notification_id =
        (createNotification (runCalls Registry.fresh calls).1 jsummary jbody jicon_path
          newOk).2 ∧
      g_hash_table_lookup
        (createNotification (runCalls Registry.fresh calls).1 jsummary jbody jicon_path
          newOk).1.notifications_map
        (createNotification (runCalls Registry.fresh calls).1 jsummary jbody jicon_path
          newOk).2 ≠ none) := by
  have hb : ((runCalls Registry.fresh calls).2.length : Int) < 2 ^ 31 - 1 := by
    have : (((runCalls Registry.fresh calls).2.length : Nat) : Int) < ((2 ^ 31 - 1 : Nat) : Int) :=
      Int.ofNat_lt.mpr hbound
    simpa using this
  have hfresh0 : Registry.fresh.notification_id = 0 := rfl
  have hspec := runCalls_ids calls Registry.fresh (by decide)
    (fun k hk => absurd rfl hk) (by rw [hfresh0]; omega)
  rw [hfresh0] at hspec
  obtain ⟨hfinal, hids, hkeys⟩ := hspec
  generalize runCalls Registry.fresh calls = res at hb hfinal hids hkeys ⊢
  have hfinal2 : res.1.notification_id = (res.2.length : Int) := by
    rw [hfinal]; omega
  refine ⟨?_, hfinal2, ?_, ?_⟩
  · intro j hj
    rw [hids j hj]
    congr 1
    omega
  · intro hfail
    rcases hfail with h | h
    · simp [createNotification, h]
    · cases hi : res.1.initted <;> simp [createNotification, hi, h]
  · intro hi hn
    have hwrap : wrap_int32 (res.1.notification_id + 1) = (res.2.length : Int) + 1 := by
      rw [hfinal2]
      exact wrap_int32_of_small _ (Int.ofNat_nonneg _) (by omega)
    have hcreate : createNotification res.1 jsummary jbody jicon_path newOk =
        ({ res.1 with notification_id := (res.2.length : Int) + 1,
                      notifications_map := g_hash_table_insert res.1.notifications_map
                        ((res.2.length : Int) + 1)
                        { summary := jsummary.getD "", body := jbody.getD "",
                          icon := jicon_path, actions := [], image := none,
                          closed_handlers := [], shown := false } },
         (res.2.length : Int) + 1) := by
      simp [createNotification, hi, hn, hwrap]
    rw [hcreate]
    refine ⟨rfl, ?_, ?_, rfl, ?_⟩
    · intro x hx
      obtain ⟨j, hj, hxj⟩ := List.getElem_of_mem hx
      have hsome : res.2[j]? = some x := by
        rw [List.getElem?_eq_getElem hj, hxj]
      rw [hids j hj] at hsome
      have hxval : x = 0 + 1 + (j : Int) := (Option.some.inj hsome).symm
      show x < (res.2.length : Int) + 1
      omega
    · show g_hash_table_lookup res.1.notifications_map ((res.2.length : Int) + 1) = none
      by_contra hne
      have := hkeys _ hne
      omega
    · show g_hash_table_lookup (g_hash_table_insert res.1.notifications_map
          ((res.2.length : Int) + 1) _) ((res.2.length : Int) + 1) ≠ none
      rw [lookup_insert, if_pos rfl]
      simp

/-- Instance of `created_ids_increase`: after one create the next id is 2. -/
theorem created_ids_increase_witness :
    (runCalls Registry.fresh
        [RegistryCall.init true,
         RegistryCall.create (some "Hi") (some "There") none true]).2 = [1] ∧
    (createNotification (runCalls Registry.fresh
        [RegistryCall.init true,
         RegistryCall.create (some "Hi") (some "There") none true]).1
        (some "a") (some "b") none true).2 = 2 :=
  ⟨by decide,
   ((created_ids_increase
      [RegistryCall.init true, RegistryCall.create (some "Hi") (some "There") none true]
      (some "a") (some "b") none true (by decide)).2.2.2 (by decide) rfl).1⟩

/-! ## Notification registry: dispose and close -/

/-- C9, as stated, fails for the callback setters: after
`cleanupNotification(1)` the id 1 is absent, yet
`setNotificationClickedCallback(1, callback 9)` is not rejected: it
changes the registry, replacing the installed clicked callback 5 by 9. -/
theorem disposed_id_setter_not_rejected :
    g_hash_table_lookup (cleanupNotification sampleRegistry 1).notifications_map 1 = none ∧
    (cleanupNotification sampleRegistry 1).g_clickedCallbackObj = some 5 ∧
    setNotificationClickedCallback (cleanupNotification sampleRegistry 1) 1 (some 9) (some 90)
      ≠ cleanupNotification sampleRegistry 1 ∧
    (setNotificationClickedCallback (cleanupNotification sampleRegistry 1) 1 (some 9)
      (some 90)).g_clickedCallbackObj = some 9 := by
  decide

/-- C9, amended: after `cleanupNotification(id)` the id is absent from the
table, and it stays absent over every following sequence of calls that
does not issue that id again. While it is absent, `sendNotification` and
`closeNotification` on it return -1 and leave the registry unchanged;
`addButtonToNotification` and `setNotificationImage` (which return
nothing) leave the registry unchanged; `setNotificationClickedCallback`
and `setNotificationClosedCallback` (which return nothing) install the
given callback in the process-wide slot and change nothing else. -/
theorem disposed_id_not_found (r : Registry) (id : Int) (calls : List RegistryCall)
    (hnot : id ∉ (runCalls (cleanupNotification r id) calls).2) :
    g_hash_table_lookup (cleanupNotification r id).notifications_map id = none ∧
    g_hash_table_lookup
      (runCalls (cleanupNotification r id) calls).1.notifications_map id = none ∧
    (∀ ok, sendNotification (runCalls (cleanupNotification r id) calls).1 id ok =
      ((runCalls (cleanupNotification r id) calls).1, -1)) ∧
    (∀ ok, closeNotification (runCalls (cleanupNotification r id) calls).1 id ok =
      ((runCalls (cleanupNotification r id) calls).1, -1)) ∧
    (∀ i l, addButtonToNotification (runCalls (cleanupNotification r id) calls).1 id i l =
      (runCalls (cleanupNotification r id) calls).1) ∧
    (∀ path loaded,
      setNotificationImage (runCalls (cleanupNotification r id) calls).1 id path loaded =
        (runCalls (cleanupNotification r id) calls).1) ∧
    (∀ cb m,
      setNotificationClickedCallback (runCalls (cleanupNotification r id) calls).1 id
          (some cb) m =
        { (runCalls (cleanupNotification r id) calls).1 with
          g_clickedCallbackObj := some cb, g_clickedMethod := m }) ∧
    (∀ cb m,
      setNotificationClosedCallback (runCalls (cleanupNotification r id) calls).1 id
          (some cb) m =
        { (runCalls (cleanupNotification r id) calls).1 with
          g_closedCallbackObj := some cb, g_closedMethod := m }) := by
  have h1 : g_hash_table_lookup (cleanupNotification r id).notifications_map id = none := by
    simp [cleanupNotification, lookup_remove_self]
  have h2 := runCalls_absent calls (cleanupNotification r id) id h1 hnot
  exact ⟨h1, h2, fun ok => send_absent _ id ok h2, fun ok => close_absent _ id ok h2,
    fun i l => addButton_absent _ id i l h2,
    fun path loaded => setImage_absent _ id path loaded h2,
    fun cb m => setClicked_absent _ id cb m h2,
    fun cb m => setClosed_absent _ id cb m h2⟩

/-- Instance of `disposed_id_not_found`: id 1 disposed, another create, then show on id 1. -/
theorem disposed_id_not_found_witness :
    (1 : Int) ∉ (runCalls (cleanupNotification sampleRegistry 1)
        [RegistryCall.create (some "next") none none true]).2 ∧
    sendNotification (runCalls (cleanupNotification sampleRegistry 1)
        [RegistryCall.create (some "next") none none true]).1 1 true =
      ((runCalls (cleanupNotification sampleRegistry 1)
        [RegistryCall.create (some "next") none none true]).1, -1) :=
  ⟨by decide,
   (disposed_id_not_found sampleRegistry 1
      [RegistryCall.create (some "next") none none true] (by decide)).2.2.1 true⟩

/-- C10: for an id that is a key of the table (one on which
`sendNotification` has just succeeded is such an id), `closeNotification`
with a successful service-side close returns 0 and removes the id, so a
`closeNotification` on the same id right after returns -1; with a failed
service-side close it returns -1 and leaves the registry, the entry
included, unchanged. -/
theorem close_evicts_entry (r : Registry) (id : Int)
    (hlive : g_hash_table_lookup r.notifications_map id ≠ none) :
    (closeNotification r id true).2 = 0 ∧
    g_hash_table_lookup (closeNotification r id true).1.notifications_map id = none ∧
    (∀ ok, (closeNotification (closeNotification r id true).1 id ok).2 = -1) ∧
    closeNotification r id false = (r, -1) ∧
    g_hash_table_lookup (closeNotification r id false).1.notifications_map id ≠ none ∧
    (sendNotification r id true).2 = 0 ∧
    g_hash_table_lookup (sendNotification r id true).1.notifications_map id ≠ none := by
  cases hl : g_hash_table_lookup r.notifications_map id with
  | none => exact absurd hl hlive
  | some n =>
    have hclose : closeNotification r id true =
        ({ r with notifications_map := g_hash_table_remove r.notifications_map id }, 0) := by
      simp [closeNotification, hl]
    have hfail : closeNotification r id false = (r, -1) := by
      simp [closeNotification, hl]
    have habsent : g_hash_table_lookup (closeNotification r id true).1.notifications_map id
        = none := by
      rw [hclose]
      exact lookup_remove_self _ _
    refine ⟨by rw [hclose], habsent, ?_, hfail, ?_, ?_, ?_⟩
    · intro ok
      rw [close_absent _ id ok habsent]
    · rw [hfail, hl]
      simp
    · simp [sendNotification, hl]
    · intro hnone
      rw [send_lookup] at hnone
      rw [hl] at hnone
      exact absurd hnone (by simp)

/-- Instance of `close_evicts_entry` at id 1 of `sampleRegistry`. -/
theorem close_evicts_entry_witness :
    g_hash_table_lookup sampleRegistry.notifications_map 1 ≠ none ∧
    (closeNotification sampleRegistry 1 true).2 = 0 ∧
    (closeNotification (closeNotification sampleRegistry 1 true).1 1 true).2 = -1 :=
  ⟨by decide, (close_evicts_entry sampleRegistry 1 (by decide)).1,
   (close_evicts_entry sampleRegistry 1 (by decide)).2.2.1 true⟩

/-! ## Notification registry: calls on an id that is not live -/

/-- C11, as stated, fails for the callback setters: 42 is not a key of the
table, yet `setNotificationClickedCallback(42, none)` clears the clicked
callback slot (5 before the call), and
`setNotificationClosedCallback(42, callback 8)` fills the closed callback
slot (empty before the call). -/
theorem absent_id_setter_changes_slot :
    g_hash_table_lookup sampleRegistry.notifications_map 42 = none ∧
    sampleRegistry.g_clickedCallbackObj = some 5 ∧
    (setNotificationClickedCallback sampleRegistry 42 none none).g_clickedCallbackObj
      = none ∧
    sampleRegistry.g_closedCallbackObj = none ∧
    (setNotificationClosedCallback sampleRegistry 42 (some 8) (some 80)).g_closedCallbackObj
      = some 8 := by
  decide

/-- C11, amended: for an id that is not a key of the table,
`sendNotification` and `closeNotification` return -1 and leave the whole
registry unchanged; `addButtonToNotification` and `setNotificationImage`
leave the whole registry unchanged; `setNotificationClickedCallback` and
`setNotificationClosedCallback` leave the table and every other field
unchanged but do replace their own callback slot: with the given callback
and its method id, or with nothing when the callback is null and a
callback object was installed. -/
theorem absent_id_calls (r : Registry) (id : Int)
    (hdead : g_hash_table_lookup r.notifications_map id = none) :
    (∀ ok, sendNotification r id ok = (r, -1)) ∧
    (∀ ok, closeNotification r id ok = (r, -1)) ∧
    (∀ i l, addButtonToNotification r id i l = r) ∧
    (∀ path loaded, setNotificationImage r id path loaded = r) ∧
    (∀ cb m, setNotificationClickedCallback r id (some cb) m =
      { r with g_clickedCallbackObj := some cb, g_clickedMethod := m }) ∧
    (∀ m, setNotificationClickedCallback r id none m =
      if r.g_clickedCallbackObj.isSome then
        { r with g_clickedCallbackObj := none, g_clickedMethod := none }
      else r) ∧
    (∀ cb m, setNotificationClosedCallback r id (some cb) m =
      { r with g_closedCallbackObj := some cb, g_closedMethod := m }) ∧
    (∀ m, setNotificationClosedCallback r id none m =
      if r.g_closedCallbackObj.isSome then
        { r with g_closedCallbackObj := none, g_closedMethod := none }
      else r) :=
  ⟨fun ok => send_absent r id ok hdead, fun ok => close_absent r id ok hdead,
   fun i l => addButton_absent r id i l hdead,
   fun path loaded => setImage_absent r id path loaded hdead,
   fun cb m => setClicked_absent r id cb m hdead,
   fun m => setClicked_none r id m,
   fun cb m => setClosed_absent r id cb m hdead,
   fun m => setClosed_none r id m⟩

/-- Instance of `absent_id_calls` at the id 42 of `sampleRegistry`. -/
theorem absent_id_calls_witness :
    g_hash_table_lookup sampleRegistry.notifications_map 42 = none ∧
    sendNotification sampleRegistry 42 true = (sampleRegistry, -1) ∧
    addButtonToNotification sampleRegistry 42 (some "ok") (some "OK") = sampleRegistry :=
  ⟨by decide, (absent_id_calls sampleRegistry 42 (by decide)).1 true,
   (absent_id_calls sampleRegistry 42 (by decide)).2.2.1 (some "ok") (some "OK")⟩

/-! ## Notification events: the closed signal -/

theorem closedSignal_registry (r : Registry) (envOk : Bool) (id : Int) :
    (closedSignal r envOk id).1 = r := by
  unfold closedSignal
  cases h : g_hash_table_lookup r.notifications_map id with
  | none => rfl
  | some n =>
    simp only
    have hfold : ∀ (handlers : List Int) (acc : Registry × List JavaCall),
        (handlers.foldl
          (fun acc user_data =>
            ((notification_closed_callback acc.1 envOk user_data).1,
             acc.2 ++ (notification_closed_callback acc.1 envOk user_data).2))
          acc).1 = acc.1 := by
      intro handlers
      induction handlers with
      | nil => intro acc; rfl
      | cons u rest ih =>
        intro acc
        rw [List.foldl_cons, ih]
        rfl
    exact hfold n.closed_handlers (r, [])

/-- C12, as stated, fails: after notification 1 is created, given a closed
callback and shown, the closed event for id 1 calls the Java closed
callback with 1 and leaves the entry in the table; a later
`sendNotification(1)` still finds it and returns 0. -/
theorem closed_event_entry_stays :
    (closedSignal (runCalls Registry.fresh closedCallbackCalls).1 true 1).2
      = [JavaCall.closed 6 60 1] ∧
    g_hash_table_lookup
      (closedSignal (runCalls Registry.fresh closedCallbackCalls).1 true 1).1.notifications_map
      1 ≠ none ∧
    (sendNotification
      (closedSignal (runCalls Registry.fresh closedCallbackCalls).1 true 1).1 1 true).2
      = 0 := by
  decide

/-- C12, amended: `notification_closed_callback` and the whole closed event
for a live id leave the registry unchanged: the id is still a key of the
table afterwards, so a later `sendNotification` or `closeNotification` on
it finds the entry (both return 0 when the service call succeeds). The
callback only calls the process-wide Java closed callback with the id,
when its object and method id are set and a JNI environment is obtained.
The entry goes away by `cleanupNotification` (or a successful
`closeNotification`). -/
theorem closed_event_keeps_entry (r : Registry) (id : Int) (envOk : Bool)
    (hlive : g_hash_table_lookup r.notifications_map id ≠ none) :
    (notification_closed_callback r envOk id).1 = r ∧
    (closedSignal r envOk id).1 = r ∧
    g_hash_table_lookup (closedSignal r envOk id).1.notifications_map id ≠ none ∧
    (sendNotification (closedSignal r envOk id).1 id true).2 = 0 ∧
    (closeNotification (closedSignal r envOk id).1 id true).2 = 0 ∧
    (∀ obj method, r.g_closedCallbackObj = some obj → r.g_closedMethod = some method →
      (notification_closed_callback r true id).2 = [JavaCall.closed obj method id]) ∧
    g_hash_table_lookup
      (cleanupNotification (closedSignal r envOk id).1 id).notifications_map id = none := by
  have hsame := closedSignal_registry r envOk id
  rw [hsame]
  cases hl : g_hash_table_lookup r.notifications_map id with
  | none => exact absurd hl hlive
  | some n =>
    refine ⟨rfl, rfl, by simp, ?_, ?_, ?_, ?_⟩
    · simp [sendNotification, hl]
    · simp [closeNotification, hl]
    · intro obj method hobj hm
      simp [notification_closed_callback, invoke_closed_callback, hobj, hm]
    · simp [cleanupNotification, lookup_remove_self]

/-- Instance of `closed_event_keeps_entry` at id 1 of `sampleRegistry`. -/
theorem closed_event_keeps_entry_witness :
    g_hash_table_lookup sampleRegistry.notifications_map 1 ≠ none ∧
    (closedSignal sampleRegistry true 1).1 = sampleRegistry ∧
    (sendNotification (closedSignal sampleRegistry true 1).1 1 true).2 = 0 :=
  ⟨by decide, (closed_event_keeps_entry sampleRegistry 1 true (by decide)).2.1,
   (closed_event_keeps_entry sampleRegistry 1 true (by decide)).2.2.2.1⟩

/-! ## Signed reading of the wire code -/

/-- C14: both decoders return the 32-bit wire code c converted to a signed
32-bit int (c below 2^31, c - 2^32 from 2^31 on). For a SettingChanged
signal of the settings interface with matching namespace and key the
worker calls `notify_java` if and only if c < 2^31, then once with
isDark = (c = 1); from 2^31 on the decoded value is negative and no call is
made; for c = 2^32 - 1 both decoders return -1, the value they also return
for a message without arguments. -/
theorem wire_code_read_as_signed (c : Nat) (rest : List DBusValue) (msg : DBusMessage)
    (hc : c < 2 ^ 32)
    (hsig : dbus_message_is_signal msg PORTAL_IFACE "SettingChanged" = true)
    (hargs : msg.args = DBusValue.string APPEARANCE_NS :: DBusValue.string COLOR_SCHEME ::
      DBusValue.variant (DBusValue.uint32 c) :: rest) :
    extract_signal_color_scheme msg = int_of_uint32 c ∧
    extract_color_scheme (replyWith
      (DBusValue.variant (DBusValue.variant (DBusValue.uint32 c)) :: rest)) = int_of_uint32 c ∧
    extract_color_scheme (replyWith
      (DBusValue.variant (DBusValue.uint32 c) :: rest)) = int_of_uint32 c ∧
    int_of_uint32 c = (if c < 2 ^ 31 then (c : Int) else (c : Int) - 2 ^ 32) ∧
    (handle_message msg ≠ [] ↔ c < 2 ^ 31) ∧
    (c < 2 ^ 31 → handle_message msg = [decide (c = 1)]) ∧
    (2 ^ 31 ≤ c → extract_signal_color_scheme msg < 0 ∧ handle_message msg = []) ∧
    (c = 2 ^ 32 - 1 →
      extract_signal_color_scheme msg = -1 ∧
      extract_color_scheme (replyWith
        (DBusValue.variant (DBusValue.variant (DBusValue.uint32 c)) :: rest)) = -1 ∧
      extract_color_scheme (replyWith
        (DBusValue.variant (DBusValue.uint32 c) :: rest)) = -1) ∧
    extract_signal_color_scheme (settingChanged []) = -1 ∧
    extract_color_scheme (replyWith []) = -1 := by
  have hext : extract_signal_color_scheme msg = int_of_uint32 c := by
    simp [extract_signal_color_scheme, hargs]
  have hval := int_of_uint32_of_lt c hc
  have hnn := int_of_uint32_nonneg_iff c hc
  have hone := int_of_uint32_eq_one_iff c hc
  have hsmall : c < 2 ^ 31 → handle_message msg = [decide (c = 1)] := by
    intro hlt
    have h0 : extract_signal_color_scheme msg ≥ 0 := by rw [hext]; exact hnn.mpr hlt
    unfold handle_message
    rw [hsig]
    simp only [if_true]
    rw [if_pos h0, hext]
    by_cases h1 : c = 1
    · rw [decide_eq_true (hone.mpr h1), decide_eq_true h1]
    · rw [decide_eq_false (fun h => h1 (hone.mp h)), decide_eq_false h1]
  have hlarge : 2 ^ 31 ≤ c → extract_signal_color_scheme msg < 0 ∧ handle_message msg = [] := by
    intro hge
    have hneg : extract_signal_color_scheme msg < 0 := by
      rw [hext]
      by_contra hcon
      have := hnn.mp (not_lt.mp hcon)
      omega
    refine ⟨hneg, ?_⟩
    unfold handle_message
    rw [hsig]
    simp only [if_true]
    rw [if_neg (not_le.mpr hneg)]
  refine ⟨hext, ?_, ?_, hval, ?_, hsmall, hlarge, ?_, by decide, by decide⟩
  · simp [extract_color_scheme, replyWith]
  · simp [extract_color_scheme, replyWith]
  · constructor
    · intro hne
      by_contra hcon
      exact hne (hlarge (not_lt.mp hcon)).2
    · intro hlt
      rw [hsmall hlt]
      simp
  · intro hmax
    have hminus : int_of_uint32 c = -1 := by
      rw [hval]
      have : ¬ c < 2 ^ 31 := by omega
      rw [if_neg this]
      omega
    refine ⟨by rw [hext, hminus], ?_, ?_⟩
    · simp [extract_color_scheme, replyWith, hminus]
    · simp [extract_color_scheme, replyWith, hminus]

/-- Instance of `wire_code_read_as_signed` at the code 2^32 - 1. -/
theorem wire_code_read_as_signed_witness :
    (4294967295 : Nat) < 2 ^ 32 ∧
    extract_signal_color_scheme (settingChanged
      [DBusValue.string APPEARANCE_NS, DBusValue.string COLOR_SCHEME,
        DBusValue.variant (DBusValue.uint32 4294967295)]) = -1 ∧
    handle_message (settingChanged
      [DBusValue.string APPEARANCE_NS, DBusValue.string COLOR_SCHEME,
        DBusValue.variant (DBusValue.uint32 4294967295)]) = [] :=
  ⟨by decide,
   ((wire_code_read_as_signed 4294967295 []
      (settingChanged
        [DBusValue.string APPEARANCE_NS, DBusValue.string COLOR_SCHEME,
          DBusValue.variant (DBusValue.uint32 4294967295)])
      (by decide) (by decide) rfl).2.2.2.2.2.2.2.1 (by decide)).1,
   ((wire_code_read_as_signed 4294967295 []
      (settingChanged
        [DBusValue.string APPEARANCE_NS, DBusValue.string COLOR_SCHEME,
          DBusValue.variant (DBusValue.uint32 4294967295)])
      (by decide) (by decide) rfl).2.2.2.2.2.2.1 (by decide)).2⟩

/-! ## Notification events: button actions -/

theorem action_map_lookup_append (actions : List NotifyAction) (a : NotifyAction)
    (key : String) :
    action_map_lookup (actions ++ [a]) key =
      if a.action = key then some a else action_map_lookup actions key := by
  induction actions with
  | nil =>
    simp [action_map_lookup]
  | cons b rest ih =>
    rw [List.cons_append]
    unfold action_map_lookup
    rw [ih]
    by_cases h : a.action = key
    · simp [h]
    · simp [h]

theorem lookup_update (m : List (Int × NotifyNotification)) (k k1 : Int)
    (f : NotifyNotification → NotifyNotification) :
    g_hash_table_lookup (updateNotification m k f) k1 =
      (g_hash_table_lookup m k1).map (fun n => if k1 = k then f n else n) := by
  induction m with
  | nil => rfl
  | cons e rest ih =>
    obtain ⟨k0, v⟩ := e
    rw [update_cons, lookup_cons, lookup_cons]
    by_cases h1 : k0 = k1
    · rw [if_pos h1, if_pos h1, h1]
      rfl
    · rw [if_neg h1, if_neg h1]
      exact ih

theorem buttonKept_update (m : List (Int × NotifyNotification)) (id p : Int)
    (action : String) (f : NotifyNotification → NotifyNotification)
    (hkept : ButtonKept m id action)
    (hf : p = id → ∀ n, HasButton n id action → HasButton (f n) id action) :
    ButtonKept (updateNotification m p f) id action := by
  obtain ⟨n, hn, hb⟩ := hkept
  by_cases hp : id = p
  · refine ⟨f n, ?_, hf hp.symm n hb⟩
    rw [lookup_update, hn]
    simp [hp]
  · refine ⟨n, ?_, hb⟩
    rw [lookup_update, hn]
    simp [hp]

theorem buttonKept_remove (m : List (Int × NotifyNotification)) (id p : Int)
    (action : String) (hkept : ButtonKept m id action) (hp : p ≠ id) :
    ButtonKept (g_hash_table_remove m p) id action := by
  obtain ⟨n, hn, hb⟩ := hkept
  refine ⟨n, ?_, hb⟩
  rw [lookup_remove, if_neg (fun e => hp e.symm)]
  exact hn

theorem hasButton_add_button (n : NotifyNotification) (id : Int) (action key label : String)
    (hb : HasButton n id action) :
    HasButton (notify_notification_add_action n key label
      ActionCallback.button_action_callback id) id action := by
  obtain ⟨a, ha, hcb, hud⟩ := hb
  unfold notify_notification_add_action
  by_cases hempty : key = "" ∨ label = ""
  · rw [if_pos hempty]
    exact ⟨a, ha, hcb, hud⟩
  · rw [if_neg hempty]
    unfold HasButton
    simp only [action_map_lookup_append]
    by_cases hk : key = action
    · exact ⟨_, by rw [if_pos hk], rfl, rfl⟩
    · exact ⟨a, by rw [if_neg hk]; exact ha, hcb, hud⟩

theorem hasButton_add_other (n : NotifyNotification) (id p : Int) (action key label : String)
    (cb : ActionCallback) (hb : HasButton n id action) (hk : key ≠ action) :
    HasButton (notify_notification_add_action n key label cb p) id action := by
  obtain ⟨a, ha, hcb, hud⟩ := hb
  unfold notify_notification_add_action
  by_cases hempty : key = "" ∨ label = ""
  · rw [if_pos hempty]
    exact ⟨a, ha, hcb, hud⟩
  · rw [if_neg hempty]
    unfold HasButton
    simp only [action_map_lookup_append]
    exact ⟨a, by rw [if_neg hk]; exact ha, hcb, hud⟩

/-- A call that keeps the registration and does not issue `id` again keeps
the button callback of `action` on `id`. -/
theorem applyCall_buttonKept (r : Registry) (c : RegistryCall) (id : Int) (action : String)
    (hkept : ButtonKept r.notifications_map id action)
    (hkeep : keepsAction id action c = true)
    (hnot : (applyCall r c).2 ≠ some id) :
    ButtonKept (applyCall r c).1.notifications_map id action := by
  cases c with
  | init initOk =>
    show ButtonKept (init r initOk).1.notifications_map id action
    rw [(init_fields r initOk).2]
    exact hkept
  | create jsummary jbody jicon_path newOk =>
    cases hc : (applyCall r (RegistryCall.create jsummary jbody jicon_path newOk)).2 with
    | none =>
      have hsame : (applyCall r (RegistryCall.create jsummary jbody jicon_path newOk)).1
          = r := by
        cases hi : r.initted with
        | false => simp [applyCall, hi]
        | true =>
          cases newOk with
          | false => simp [applyCall, hi]
          | true => simp [applyCall, hi] at hc
      rw [hsame]
      exact hkept
    | some id2 =>
      have hne : id ≠ id2 := fun e => hnot (by rw [hc, e])
      obtain ⟨n, hn, hb⟩ := hkept
      exact ⟨n, by rw [(applyCall_some r _ id2 hc).2.2.2 id hne]; exact hn, hb⟩
  | addButton p i l =>
    show ButtonKept (addButtonToNotification r p i l).notifications_map id action
    unfold addButtonToNotification
    cases hl : g_hash_table_lookup r.notifications_map p with
    | none => exact hkept
    | some n0 =>
      simp only
      apply buttonKept_update _ _ _ _ _ hkept
      intro hp n hb
      rw [hp]
      exact hasButton_add_button n id action _ _ hb
  | setClicked p cb m =>
    show ButtonKept (setNotificationClickedCallback r p cb m).notifications_map id action
    unfold setNotificationClickedCallback
    cases hobj : r.g_clickedCallbackObj <;> cases cb <;>
      cases hl : g_hash_table_lookup r.notifications_map p <;>
      simp only [Option.isSome_none, Option.isSome_some, Bool.false_eq_true, if_false,
        if_true, hl] <;>
      first
      | exact hkept
      | (apply buttonKept_update _ _ _ _ _ hkept
         intro hp n hb
         have hdef : action ≠ "default" := by
           simpa [keepsAction, hp] using hkeep
         exact hasButton_add_other n id p action _ _ _ hb (fun e => hdef e.symm))
  | setClosed p cb m =>
    show ButtonKept (setNotificationClosedCallback r p cb m).notifications_map id action
    unfold setNotificationClosedCallback
    cases hobj : r.g_closedCallbackObj <;> cases cb <;>
      cases hl : g_hash_table_lookup r.notifications_map p <;>
      simp only [Option.isSome_none, Option.isSome_some, Bool.false_eq_true, if_false,
        if_true, hl] <;>
      first
      | exact hkept
      | exact buttonKept_update _ _ _ _ _ hkept (fun _ n hb => hb)
  | setButton cb m =>
    show ButtonKept (setButtonCallback r cb m).notifications_map id action
    rw [(setButton_map r cb m).1]
    exact hkept
  | setImage p path loaded =>
    show ButtonKept (setNotificationImage r p path loaded).notifications_map id action
    unfold setNotificationImage
    cases hl : g_hash_table_lookup r.notifications_map p with
    | none => exact hkept
    | some n0 =>
      cases path with
      | none => exact hkept
      | some image_path =>
        cases loaded with
        | false => exact hkept
        | true =>
          simp only [if_true, eq_self]
          apply buttonKept_update _ _ _ _ _ hkept
          intro _ n hb
          exact hb
  | send p ok =>
    show ButtonKept (sendNotification r p ok).1.notifications_map id action
    unfold sendNotification
    cases hl : g_hash_table_lookup r.notifications_map p with
    | none => exact hkept
    | some n0 =>
      cases ok with
      | false => exact hkept
      | true =>
        simp only [Bool.true_eq_false, if_false]
        apply buttonKept_update _ _ _ _ _ hkept
        intro _ n hb
        exact hb
  | close p ok =>
    show ButtonKept (closeNotification r p ok).1.notifications_map id action
    unfold closeNotification
    cases hl : g_hash_table_lookup r.notifications_map p with
    | none => exact hkept
    | some n0 =>
      cases ok with
      | false => exact hkept
      | true =>
        have hp : p ≠ id := by simpa [keepsAction] using hkeep
        exact buttonKept_remove _ _ _ _ hkept hp
  | cleanupOne p =>
    have hp : p ≠ id := by simpa [keepsAction] using hkeep
    exact buttonKept_remove _ _ _ _ hkept hp

theorem runCalls_buttonKept (calls : List RegistryCall) :
    ∀ (r : Registry) (id : Int) (action : String),
      ButtonKept r.notifications_map id action →
      (∀ c ∈ calls, keepsAction id action c = true) →
      id ∉ (runCalls r calls).2 →
      ButtonKept (runCalls r calls).1.notifications_map id action := by
  induction calls with
  | nil =>
    intro r id action hkept _ _
    exact hkept
  | cons c rest ih =>
    intro r id action hkept hkeep hnot
    rw [runCalls_cons] at hnot ⊢
    have hc1 : keepsAction id action c = true := hkeep c (List.mem_cons_self _ _)
    have hrestk : ∀ c2 ∈ rest, keepsAction id action c2 = true :=
      fun c2 h2 => hkeep c2 (List.mem_cons_of_mem _ h2)
    cases hc : (applyCall r c).2 with
    | none =>
      simp only [hc] at hnot ⊢
      exact ih _ id action (applyCall_buttonKept r c id action hkept hc1 (by rw [hc]; simp))
        hrestk hnot
    | some id2 =>
      simp only [hc] at hnot ⊢
      have hne : id ≠ id2 := fun e => hnot (by rw [e]; exact List.mem_cons_self _ _)
      have hrest : id ∉ (runCalls (applyCall r c).1 rest).2 :=
        fun hmem => hnot (List.mem_cons_of_mem _ hmem)
      exact ih _ id action
        (applyCall_buttonKept r c id action hkept hc1
          (by rw [hc]; exact fun e => hne (Option.some.inj e).symm))
        hrestk hrest

theorem addButton_buttonKept (r : Registry) (id : Int) (actionId label : String)
    (hlive : g_hash_table_lookup r.notifications_map id ≠ none)
    (hid : actionId ≠ "") (hlabel : label ≠ "") :
    ButtonKept (addButtonToNotification r id (some actionId) (some label)).notifications_map
      id actionId := by
  cases hl : g_hash_table_lookup r.notifications_map id with
  | none => exact absurd hl hlive
  | some n =>
    unfold addButtonToNotification
    simp only [hl]
    refine ⟨notify_notification_add_action n actionId label
      ActionCallback.button_action_callback id, ?_, ?_⟩
    · rw [lookup_update, hl]
      simp
    · unfold notify_notification_add_action
      rw [if_neg (by simp [hid, hlabel])]
      unfold HasButton
      simp only [action_map_lookup_append]
      exact ⟨{ action := actionId, label := label,
               callback := ActionCallback.button_action_callback, user_data := id },
        if_pos trivial, rfl, rfl⟩

theorem actionInvoked_of_buttonKept (r : Registry) (envOk : Bool) (id : Int) (action : String)
    (hkept : ButtonKept r.notifications_map id action) :
    actionInvoked r envOk id action = (r, invoke_button_callback r envOk id action) := by
  obtain ⟨n, hn, a, ha, hcb, hud⟩ := hkept
  unfold actionInvoked
  simp only [hn, ha, hcb, hud]
  rfl

/-- C13, as stated, fails in two cases. A button added under the action key
"default" loses its registration when a clicked callback is set on the
same id afterwards: the event (1, "default") then calls the clicked
callback 5 and not the button callback 7. And when `get_jni_env` yields no
environment, the event (1, "ok") of the scenario calls nothing. -/
theorem default_key_button_not_invoked :
    (runCalls Registry.fresh defaultKeyCalls).2 = [1] ∧
    (runCalls Registry.fresh defaultKeyCalls).1.g_buttonCallbackObj = some 7 ∧
    (runCalls Registry.fresh defaultKeyCalls).1.g_buttonMethod = some 70 ∧
    actionInvoked (runCalls Registry.fresh defaultKeyCalls).1 true 1 "default" =
      ((runCalls Registry.fresh defaultKeyCalls).1, [JavaCall.clicked 5 50 1]) ∧
    actionInvoked (runCalls Registry.fresh scenarioCalls).1 false 1 "ok" =
      ((runCalls Registry.fresh scenarioCalls).1, []) := by
  decide

/-- C13, amended: for a live id and a button (actionId, label), both
strings non-empty, added to it with `addButtonToNotification`, after any
further calls that neither
remove the entry of the id nor issue the id again nor, when the key is
"default", set a clicked callback on the id: if a button callback object
and its method id are registered and a JNI environment is obtained, the
"action invoked" event for the id and actionId makes exactly one Java
call, on the button callback with (id, actionId), and leaves the registry
unchanged. In the scenario of the specification, create("Hi","There")
returns 1, show(1) returns 0 after addButton(1,"ok","OK"), and the event
(1, "ok") calls the button callback with (1, "ok"). -/
theorem button_event_invokes_callback (r : Registry) (id : Int) (actionId label : String)
    (calls : List RegistryCall) (obj method : Nat)
    (hlive : g_hash_table_lookup r.notifications_map id ≠ none)
    (hid : actionId ≠ "") (hlabel : label ≠ "")
    (hkeep : ∀ c ∈ calls, keepsAction id actionId c = true)
    (hnot : id ∉
      (runCalls (addButtonToNotification r id (some actionId) (some label)) calls).2)
    (hobj : (runCalls (addButtonToNotification r id (some actionId) (some label))
      calls).1.g_buttonCallbackObj = some obj)
    (hmethod : (runCalls (addButtonToNotification r id (some actionId) (some label))
      calls).1.g_buttonMethod = some method) :
    actionInvoked
        (runCalls (addButtonToNotification r id (some actionId) (some label)) calls).1
        true id actionId =
      ((runCalls (addButtonToNotification r id (some actionId) (some label)) calls).1,
       [JavaCall.button obj method id actionId]) ∧
    (createNotification
      (runCalls Registry.fresh
        [RegistryCall.init true, RegistryCall.setButton (some 7) (some 70)]).1
      (some "Hi") (some "There") none true).2 = 1 ∧
    (sendNotification
      (runCalls Registry.fresh
        [RegistryCall.init true, RegistryCall.setButton (some 7) (some 70),
         RegistryCall.create (some "Hi") (some "There") none true,
         RegistryCall.addButton 1 (some "ok") (some "OK")]).1 1 true).2 = 0 ∧
    actionInvoked (runCalls Registry.fresh scenarioCalls).1 true 1 "ok" =
      ((runCalls Registry.fresh scenarioCalls).1, [JavaCall.button 7 70 1 "ok"]) := by
  refine ⟨?_, by decide, by decide, by decide⟩
  have hkept := runCalls_buttonKept calls
    (addButtonToNotification r id (some actionId) (some label)) id actionId
    (addButton_buttonKept r id actionId label hlive hid hlabel) hkeep hnot
  rw [actionInvoked_of_buttonKept _ true id actionId hkept]
  simp [invoke_button_callback, hobj, hmethod]

/-- Instance of `button_event_invokes_callback`: the scenario of the
specification, with the show call made after the button was added. -/
theorem button_event_invokes_callback_witness :
    g_hash_table_lookup
      (runCalls Registry.fresh
        [RegistryCall.init true, RegistryCall.setButton (some 7) (some 70),
         RegistryCall.create (some "Hi") (some "There") none true]).1.notifications_map 1
      ≠ none ∧
    actionInvoked
        (runCalls (addButtonToNotification
          (runCalls Registry.fresh
            [RegistryCall.init true, RegistryCall.setButton (some 7) (some 70),
             RegistryCall.create (some "Hi") (some "There") none true]).1
          1 (some "ok") (some "OK")) [RegistryCall.send 1 true]).1
        true 1 "ok" =
      ((runCalls (addButtonToNotification
          (runCalls Registry.fresh
            [RegistryCall.init true, RegistryCall.setButton (some 7) (some 70),
             RegistryCall.create (some "Hi") (some "There") none true]).1
          1 (some "ok") (some "OK")) [RegistryCall.send 1 true]).1,
       [JavaCall.button 7 70 1 "ok"]) :=
  ⟨by decide,
   (button_event_invokes_callback
      (runCalls Registry.fresh
        [RegistryCall.init true, RegistryCall.setButton (some 7) (some 70),
         RegistryCall.create (some "Hi") (some "There") none true]).1
      1 "ok" "OK" [RegistryCall.send 1 true] 7 70
      (by decide) (by decide) (by decide) (by decide) (by decide) (by decide)
      (by decide)).1⟩

end Nucleus
